import Mathlib

/-!
Verification of the gitops-kustomzchk core: the path-template engine
(src/pkg/pathbuilder), the compliance enforcement classifier and evaluation
aggregator (src/pkg/policy/evaluator.go), and the local dynamic-path
orchestrator (src/internal/runner/local.go).

Go maps are modelled as association lists (`List (String × α)`) with
map-write (`setAssoc`, last write wins) and map-read (`alookup`) helpers;
Go's missing-key zero value is modelled with `getD`.  Go's randomized map
iteration order is modelled by an explicit order parameter where the
iteration order is observable in the output.  `time.Time` is modelled as
`Int` with `t1.Before t2 = (t1 < t2)`.  External collaborators (kustomize
build, conftest) are modelled as oracle functions supplied as parameters.
-/

/-- Read from an association list modelling a Go map (first binding wins;
`setAssoc` keeps keys unique so this matches Go map reads). -/
def alookup {α : Type} (m : List (String × α)) (k : String) : Option α :=
  match m.find? (fun kv => kv.1 == k) with
  | some kv => some kv.2
  | none => none

/-- Write to an association list modelling a Go map (replace or append). -/
def setAssoc {α : Type} : List (String × α) → String → α → List (String × α)
  | [], k, v => [(k, v)]
  | kv :: rest, k, v => if kv.1 == k then (k, v) :: rest else kv :: setAssoc rest k v

namespace Pathbuilder

/-- First character class of the variable regex `[A-Za-z_][A-Za-z0-9_]*`. -/
def isVarStart (c : Char) : Bool :=
  (('A' ≤ c && c ≤ 'Z') || ('a' ≤ c && c ≤ 'z') || c == '_')

/-- Subsequent character class of the variable regex. -/
def isVarChar (c : Char) : Bool :=
  isVarStart c || ('0' ≤ c && c ≤ '9')

/-- Left-to-right scan for `variablePattern = \[([A-Za-z_][A-Za-z0-9_]*)\]`
matches, as regexp.FindAllStringSubmatch does: at a `[` try the maximal
variable-name run followed by `]`; on failure resume one character later.
Fuel (initialised to the string length) bounds the recursion; every step
consumes at least one character so the fuel never runs out. -/
def scanVarsGo (fuel : Nat) (s : List Char) : List (List Char) :=
  match fuel, s with
  | 0, _ => []
  | _ + 1, [] => []
  | fuel + 1, c :: rest =>
    if c = '[' then
      let name := rest.takeWhile isVarChar
      match name with
      | [] => scanVarsGo fuel rest
      | n0 :: _ =>
        if isVarStart n0 then
          match rest.drop name.length with
          | ']' :: after => name :: scanVarsGo fuel after
          | _ => scanVarsGo fuel rest
        else scanVarsGo fuel rest
    else scanVarsGo fuel rest

/-- All `[NAME]` occurrences of a template, in scan order. -/
def scanVars (s : List Char) : List (List Char) := scanVarsGo s.length s

/-- Keep the first occurrence of each name (the `seen` map of ParseTemplate). -/
def dedupFirst (l : List String) : List String :=
  l.foldl (fun acc v => if acc.contains v then acc else acc ++ [v]) []

/-- ParseTemplate: extract distinct `[NAME]` vars in first-appearance
order. -/
def parseTemplate (template : String) : List String :=
  dedupFirst ((scanVars template.data).map (fun cs => String.mk cs))

/-- Trim ASCII/unicode whitespace from both ends (strings.TrimSpace). -/
def trimChars (s : List Char) : List Char :=
  (((s.dropWhile Char.isWhitespace).reverse).dropWhile Char.isWhitespace).reverse

/-- String-level TrimSpace. -/
def trimStr (s : String) : String := String.mk (trimChars s.data)

/-- strings.Split on a one-character separator (Split of "" gives [""]). -/
def splitOnChar (sep : Char) : List Char → List (List Char)
  | [] => [[]]
  | c :: rest =>
    match splitOnChar sep rest with
    | [] => [[c]]
    | h :: t => if c = sep then [] :: h :: t else (c :: h) :: t

/-- String-level Split. -/
def splitStr (sep : Char) (s : String) : List String :=
  (splitOnChar sep s.data).map String.mk

/-- strings.SplitN(token, "=", 2): split at the first `=`; `none` when the
token has no `=`. -/
def splitFirstEq : List Char → Option (List Char × List Char)
  | [] => none
  | c :: rest =>
    if c = '=' then some ([], rest)
    else (splitFirstEq rest).map (fun p => (c :: p.1, p.2))

/-- Token loop of ParseValues. -/
def parseValuesGo : List String → List (String × List String) →
    Except String (List (String × List String))
  | [], acc => .ok acc
  | token :: rest, acc =>
    let token := trimStr token
    if token = "" then parseValuesGo rest acc
    else
      match splitFirstEq token.data with
      | none => .error ("invalid token format: " ++ token ++ ", expected KEY=value1,value2")
      | some (kcs, vcs) =>
        let key := trimStr (String.mk kcs)
        if key = "" then .error ("empty key in token: " ++ token)
        else
          let vstr := trimStr (String.mk vcs)
          if vstr = "" then .error ("empty value for key: " ++ key)
          else parseValuesGo rest (setAssoc acc key ((splitStr ',' vstr).map trimStr))

/-- ParseValues: parse a `KEY=v1,v2;KEY2=v3` declaration into a map. -/
def parseValues (valuesStr : String) : Except String (List (String × List String)) :=
  if valuesStr = "" then .ok []
  else parseValuesGo (splitStr ';' valuesStr) []

/-- Per-variable check of Validate. -/
def validateVars (vars : List (String × List String)) :
    List String → Except String Unit
  | [] => .ok ()
  | v :: rest =>
    match alookup vars v with
    | none => .error ("variable $" ++ v ++ " in template has no values defined")
    | some vals =>
      if vals.isEmpty then .error ("variable $" ++ v ++ " has empty values")
      else validateVars vars rest

/-- PathBuilder.Validate. -/
def validatePB (template : String) (vars : List (String × List String)) :
    Except String Unit :=
  if template = "" then .error "template cannot be empty"
  else validateVars vars (parseTemplate template)

/-- strings.ReplaceAll on character lists: leftmost, non-overlapping.  Fuel
(initialised to the string length) bounds the recursion; the pattern is
always non-empty here so every step consumes at least one character. -/
def replaceAllGo (pat repl : List Char) : Nat → List Char → List Char
  | _, [] => []
  | 0, s => s
  | fuel + 1, c :: rest =>
    if pat.isPrefixOf (c :: rest) then
      repl ++ replaceAllGo pat repl fuel ((c :: rest).drop pat.length)
    else c :: replaceAllGo pat repl fuel rest

/-- String-level ReplaceAll. -/
def replaceAllStr (s pat repl : String) : String :=
  String.mk (replaceAllGo pat.data repl.data s.data.length s.data)

/-- InterpolatePath: substitute every `[NAME]` with its bound value, then
fail if any `[NAME]`-shaped substring remains.  The Go code iterates the
`values` map in unspecified order; the association-list order stands in for
that iteration order. -/
def interpolatePath (template : String) (values : List (String × String)) :
    Except String String :=
  let result := values.foldl
    (fun acc kv => replaceAllStr acc ("[" ++ kv.1 ++ "]") kv.2) template
  if (scanVars result.data).isEmpty then .ok result
  else .error "unresolved variables in path"

/-- generateCombinations / cartesianProduct: all assignments in template
variable order, first variable outermost. -/
def genCombos (vars : List (String × List String)) :
    List String → List (List (String × String))
  | [] => [[]]
  | v :: rest =>
    ((alookup vars v).getD []).flatMap
      (fun val => (genCombos vars rest).map (fun combo => (v, val) :: combo))

/-- generateOverlayKey: the chosen values in template variable order joined
with "/". -/
def generateOverlayKey (varNames : List String) (values : List (String × String)) :
    String :=
  String.intercalate "/" (varNames.filterMap (fun v => alookup values v))

/-- PathCombination. -/
structure PathCombination where
  path : String
  values : List (String × String)
  overlayKey : String
deriving DecidableEq, Repr

/-- Result loop of GenerateAllPaths. -/
def buildCombos (template : String) (varNames : List String) :
    List (List (String × String)) → Except String (List PathCombination)
  | [] => .ok []
  | combo :: rest =>
    match interpolatePath template combo with
    | .error e => .error e
    | .ok path =>
      match buildCombos template varNames rest with
      | .error e => .error e
      | .ok l =>
        .ok ({ path := path, values := combo,
               overlayKey := generateOverlayKey varNames combo } :: l)

/-- GenerateAllPaths. -/
def generateAllPaths (template : String) (vars : List (String × List String)) :
    Except String (List PathCombination) :=
  match validatePB template vars with
  | .error e => .error e
  | .ok _ =>
    let templateVars := parseTemplate template
    if templateVars.isEmpty then
      .ok [{ path := template, values := [], overlayKey := template }]
    else
      buildCombos template templateVars (genCombos vars templateVars)

/-- The cartesian product has exactly the product of the value-list sizes
as its length. -/
theorem genCombos_length (vars : List (String × List String)) (names : List String) :
    (genCombos vars names).length =
      (names.map (fun v => ((alookup vars v).getD []).length)).prod := by
  induction names with
  | nil => simp [genCombos]
  | cons v rest ih =>
    rw [genCombos, List.length_flatMap, List.map_cons, List.prod_cons]
    simp only [Function.comp_def]
    have h1 : (((alookup vars v).getD []).map
        (fun a => ((genCombos vars rest).map (fun combo => (v, a) :: combo)).length)) =
        ((alookup vars v).getD []).map
          (fun _ => (rest.map (fun w => ((alookup vars w).getD []).length)).prod) := by
      apply List.map_congr_left
      intro a _
      simp [ih]
    rw [h1, List.map_const', List.sum_replicate, smul_eq_mul]

/-- Distinct value lists give pairwise-distinct assignments. -/
theorem genCombos_nodup (vars : List (String × List String)) (names : List String)
    (h : ∀ v ∈ names, ((alookup vars v).getD []).Nodup) :
    (genCombos vars names).Nodup := by
  induction names with
  | nil => simp [genCombos]
  | cons v rest ih =>
    rw [genCombos]
    apply List.nodup_flatMap.mpr
    constructor
    · intro val _
      apply List.Nodup.map
      · intro c1 c2 hc
        simpa using hc
      · exact ih (fun w hw => h w (List.mem_cons_of_mem _ hw))
    · have hv := h v (List.mem_cons_self v rest)
      refine List.Pairwise.imp ?_ hv
      intro a b hab x hxa hxb
      rcases List.mem_map.mp hxa with ⟨c1, _, hc1⟩
      rcases List.mem_map.mp hxb with ⟨c2, _, hc2⟩
      rw [← hc1] at hc2
      have hba : b = a := by
        simpa using congrArg (fun l => l.head?) hc2
      exact hab hba.symm

/-- The result records of GenerateAllPaths carry the generated assignments
verbatim. -/
theorem buildCombos_values (template : String) (varNames : List String)
    (combos : List (List (String × String))) (l : List PathCombination)
    (h : buildCombos template varNames combos = .ok l) :
    l.map (fun c => c.values) = combos := by
  induction combos generalizing l with
  | nil =>
    unfold buildCombos at h
    cases h
    rfl
  | cons combo rest ih =>
    unfold buildCombos at h
    cases hi : interpolatePath template combo with
    | error e => rw [hi] at h; cases h
    | ok path =>
      rw [hi] at h
      cases hr : buildCombos template varNames rest with
      | error e => rw [hr] at h; cases h
      | ok l' =>
        rw [hr] at h
        cases h
        simp [ih l' hr]

end Pathbuilder

namespace Policy

def POLICY_LEVEL_RECOMMEND : String := "RECOMMEND"
def POLICY_LEVEL_WARNING : String := "WARNING"
def POLICY_LEVEL_BLOCK : String := "BLOCK"
def POLICY_LEVEL_OVERRIDE : String := "OVERRIDE"
def POLICY_LEVEL_NOT_IN_EFFECT : String := "NOT_IN_EFFECT"
def POLICY_LEVEL_UNKNOWN : String := ""

/-- models.EnforcementConfig: the three optional timestamps (as `Int`) and
the override comment (OverrideConfig.Comment; "" when unset). -/
structure EnforcementConfig where
  inEffectAfter : Option Int
  isWarningAfter : Option Int
  isBlockingAfter : Option Int
  overrideComment : String
deriving DecidableEq, Repr

/-- models.PolicyConfig (the fields the core consumes; `ptype` is the Go
field `Type`). -/
structure PolicyConfig where
  name : String
  description : String
  ptype : String
  filePath : String
  externalLink : String
  enforcement : EnforcementConfig
deriving DecidableEq, Repr

/-- The date-ordering guard of validateComplianceConfig:
IsWarningAfter.Before(InEffectAfter) when both are set. -/
def warnBeforeInEffect (e : EnforcementConfig) : Bool :=
  match e.inEffectAfter, e.isWarningAfter with
  | some ie, some w => w < ie
  | _, _ => false

/-- The second date-ordering guard: IsBlockingAfter.Before(IsWarningAfter)
when both are set. -/
def blockBeforeWarn (e : EnforcementConfig) : Bool :=
  match e.isWarningAfter, e.isBlockingAfter with
  | some w, some b => b < w
  | _, _ => false

/-- Per-policy body of validateComplianceConfig. -/
def validatePolicyCfg (id : String) (p : PolicyConfig) : Except String Unit :=
  if p.name = "" then .error ("policy " ++ id ++ ": name is required")
  else if p.ptype = "" then .error ("policy " ++ id ++ ": type is required")
  else if p.ptype ≠ "opa" then
    .error ("policy " ++ id ++ ": unsupported type " ++ p.ptype ++ " (only 'opa' is supported)")
  else if p.filePath = "" then .error ("policy " ++ id ++ ": filePath is required")
  else if warnBeforeInEffect p.enforcement then
    .error ("policy " ++ id ++ ": isWarningAfter cannot be before inEffectAfter")
  else if blockBeforeWarn p.enforcement then
    .error ("policy " ++ id ++ ": isBlockingAfter cannot be before isWarningAfter")
  else if p.enforcement.overrideComment ≠ "" ∧ p.enforcement.overrideComment.length > 255 then
    .error ("policy " ++ id ++ ": override comment is too long (max 255 characters)")
  else .ok ()

/-- Loop of validateComplianceConfig over the policies. -/
def validateAll : List (String × PolicyConfig) → Except String Unit
  | [] => .ok ()
  | (id, p) :: rest =>
    match validatePolicyCfg id p with
    | .error e => .error e
    | .ok _ => validateAll rest

/-- validateComplianceConfig: fail when no policies, else first failing
policy fails the whole load. -/
def validateComplianceConfig (cfg : List (String × PolicyConfig)) : Except String Unit :=
  if cfg.isEmpty then .error "no policies defined in compliance config"
  else validateAll cfg

/-- The overrideCmdToPolicyId construction of LoadAndValidate: skip
policies with an empty override comment, reject duplicate comments.
(The on-disk policy/test-file existence checks of LoadAndValidate are I/O
against the filesystem and are outside this model.) -/
def loadOverrideMapGo (acc : List (String × String)) :
    List (String × PolicyConfig) → Except String (List (String × String))
  | [] => .ok acc
  | (id, p) :: rest =>
    if p.enforcement.overrideComment = "" then loadOverrideMapGo acc rest
    else if (alookup acc p.enforcement.overrideComment).isSome then
      .error ("policy " ++ id ++ ": use another command, this override command already exists: "
        ++ p.enforcement.overrideComment)
    else loadOverrideMapGo (acc ++ [(p.enforcement.overrideComment, id)]) rest

/-- The override-command map keyed by comment, as built by LoadAndValidate. -/
def loadOverrideMap (cfg : List (String × PolicyConfig)) :
    Except String (List (String × String)) :=
  loadOverrideMapGo [] cfg

/-- The schedule-classification block of DetermineEnforcementLevel
(evaluator.go lines 606-620): four successive overwriting ifs, starting
from UNKNOWN; `now.Before t` is `now < t`. -/
def determineLevel (e : EnforcementConfig) (now : Int) : String :=
  let l0 := POLICY_LEVEL_UNKNOWN
  let l1 := match e.inEffectAfter with
    | some t => if now < t then POLICY_LEVEL_NOT_IN_EFFECT else l0
    | none => l0
  let l2 := match e.inEffectAfter with
    | some t => if ¬ now < t then POLICY_LEVEL_RECOMMEND else l1
    | none => l1
  let l3 := match e.isWarningAfter with
    | some t => if ¬ now < t then POLICY_LEVEL_WARNING else l2
    | none => l2
  let l4 := match e.isBlockingAfter with
    | some t => if ¬ now < t then POLICY_LEVEL_BLOCK else l3
    | none => l3
  l4

/-- First pass of DetermineEnforcementLevel: for each comment that is a
known override command, set that policy to OVERRIDE. -/
def overridePass (ovMap : List (String × String)) (comments : List String) :
    List (String × String) :=
  comments.foldl
    (fun r c =>
      match alookup ovMap c with
      | some pid => setAssoc r pid POLICY_LEVEL_OVERRIDE
      | none => r)
    []

/-- Second pass of DetermineEnforcementLevel: every policy not already set
by an override gets its schedule classification.  The Go code ranges over
the policies map; the config list order stands in for that iteration order
(the resulting map content does not depend on it when ids are unique). -/
def schedulePass (cfg : List (String × PolicyConfig)) (now : Int)
    (r0 : List (String × String)) : List (String × String) :=
  cfg.foldl
    (fun r idp =>
      if (alookup r idp.1).isSome then r
      else r ++ [(idp.1, determineLevel idp.2.enforcement now)])
    r0

/-- DetermineEnforcementLevel: policy id → enforcement level. -/
def determineEnforcementLevel (cfg : List (String × PolicyConfig))
    (ovMap : List (String × String)) (comments : List String) (now : Int) :
    List (String × String) :=
  schedulePass cfg now (overridePass ovMap comments)

/-- models.PolicyEvalResult: one raw conftest outcome. -/
structure PolicyEvalResult where
  status : String
  failMessages : List String
  errorMessage : String
  stdout : String
  stderr : String
deriving DecidableEq, Repr

/-- models.PolicyResult. -/
structure PolicyResult where
  policyId : String
  policyName : String
  externalLink : String
  overrideCommand : String
  isPassing : Bool
  evaluationStatus : String
  failMessages : List String
  errorMessage : String
  confTestStdout : String
  confTestStderr : String
deriving DecidableEq, Repr

/-- The vacuous pass record built for every policy of a skipped overlay
(GeneratePolicyEvalResultForManifests lines 217-225). -/
def passPolicyResult (id : String) (p : PolicyConfig) : PolicyResult :=
  { policyId := id
    policyName := p.name
    externalLink := p.externalLink
    overrideCommand := p.enforcement.overrideComment
    isPassing := true
    evaluationStatus := "pass"
    failMessages := []
    errorMessage := ""
    confTestStdout := ""
    confTestStderr := "" }

/-- The per-policy record built from a raw conftest outcome
(GeneratePolicyEvalResultForManifests lines 243-266): the struct literal
followed by the status switch. -/
def mkPolicyResult (id : String) (p : PolicyConfig) (er : PolicyEvalResult) :
    PolicyResult :=
  let base : PolicyResult :=
    { policyId := id
      policyName := p.name
      externalLink := p.externalLink
      overrideCommand := p.enforcement.overrideComment
      isPassing := er.failMessages.isEmpty
      evaluationStatus := er.status
      failMessages := er.failMessages
      errorMessage := ""
      confTestStdout := er.stdout
      confTestStderr := er.stderr }
  if er.status = "pass" then { base with isPassing := true, failMessages := [] }
  else if er.status = "fail" then { base with isPassing := false, failMessages := er.failMessages }
  else if er.status = "error" then
    { base with isPassing := false, errorMessage := er.errorMessage, failMessages := [] }
  else base

/-- models.BuildEnvManifestResult; manifests are opaque strings. -/
structure BuildEnvManifestResult where
  overlayKey : String
  environment : String
  fullBuildPath : String
  beforeManifest : String
  afterManifest : String
  skipped : Bool
  skipReason : String
deriving DecidableEq, Repr

/-- Phase 1 of GeneratePolicyEvalResultForManifests for one overlay: the
skipped short-circuit, else Evaluate on the after-manifest.  `oracle`
models the external conftest run (manifest, policy id ↦ raw outcome);
Evaluate invokes it once per configured policy. -/
def evalEnvResults (cfg : List (String × PolicyConfig))
    (oracle : String → String → PolicyEvalResult) (m : BuildEnvManifestResult) :
    List PolicyResult :=
  if m.skipped then cfg.map (fun ip => passPolicyResult ip.1 ip.2)
  else cfg.map (fun ip => mkPolicyResult ip.1 ip.2 (oracle m.afterManifest ip.1))

/-- models.PolicyMatrix: the five enforcement-level buckets. -/
structure PolicyMatrix where
  blockingPolicies : List PolicyResult
  warningPolicies : List PolicyResult
  recommendPolicies : List PolicyResult
  overriddenPolicies : List PolicyResult
  notInEffectPolicies : List PolicyResult
deriving DecidableEq, Repr

/-- models.EnforcementPassingStatus. -/
structure EnforcementPassingStatus where
  passBlockingCheck : Bool
  passWarningCheck : Bool
  passRecommendCheck : Bool
deriving DecidableEq, Repr

/-- models.PolicyCounts. -/
structure PolicyCounts where
  totalCount : Nat
  totalSuccess : Nat
  totalFailed : Nat
  totalErrored : Nat
  totalOmitted : Nat
  totalOmittedFailed : Nat
  totalOmittedSuccess : Nat
  blockingSuccessCount : Nat
  blockingFailedCount : Nat
  blockingErroredCount : Nat
  warningSuccessCount : Nat
  warningFailedCount : Nat
  warningErroredCount : Nat
  recommendSuccessCount : Nat
  recommendFailedCount : Nat
  recommendErroredCount : Nat
  overriddenSuccessCount : Nat
  overriddenFailedCount : Nat
  overriddenErroredCount : Nat
  notInEffectSuccessCount : Nat
  notInEffectFailedCount : Nat
  notInEffectErroredCount : Nat
deriving DecidableEq, Repr

/-- models.EnvironmentSummaryEnv. -/
structure EnvironmentSummaryEnv where
  passingStatus : EnforcementPassingStatus
  policyCounts : PolicyCounts
deriving DecidableEq, Repr

/-- The mutable locals of the crafting loop of
GeneratePolicyEvalResultForManifests (lines 288-297): twenty counters and
the five bucket slices. -/
structure CraftState where
  totalCnt : Nat
  successCnt : Nat
  failedCnt : Nat
  erroredCnt : Nat
  omittedCnt : Nat
  blockingSuccessCnt : Nat
  blockingFailedCnt : Nat
  blockingErroredCnt : Nat
  warningSuccessCnt : Nat
  warningFailedCnt : Nat
  warningErroredCnt : Nat
  recommendSuccessCnt : Nat
  recommendFailedCnt : Nat
  recommendErroredCnt : Nat
  overriddenSuccessCnt : Nat
  overriddenFailedCnt : Nat
  overriddenErroredCnt : Nat
  notInEffectSuccessCnt : Nat
  notInEffectFailedCnt : Nat
  notInEffectErroredCnt : Nat
  blockingPolicies : List PolicyResult
  warningPolicies : List PolicyResult
  recommendPolicies : List PolicyResult
  overriddenPolicies : List PolicyResult
  notInEffectPolicies : List PolicyResult
deriving DecidableEq, Repr

/-- All counters zero, all buckets empty. -/
def initCraftState : CraftState :=
  { totalCnt := 0, successCnt := 0, failedCnt := 0, erroredCnt := 0, omittedCnt := 0
    blockingSuccessCnt := 0, blockingFailedCnt := 0, blockingErroredCnt := 0
    warningSuccessCnt := 0, warningFailedCnt := 0, warningErroredCnt := 0
    recommendSuccessCnt := 0, recommendFailedCnt := 0, recommendErroredCnt := 0
    overriddenSuccessCnt := 0, overriddenFailedCnt := 0, overriddenErroredCnt := 0
    notInEffectSuccessCnt := 0, notInEffectFailedCnt := 0, notInEffectErroredCnt := 0
    blockingPolicies := [], warningPolicies := [], recommendPolicies := []
    overriddenPolicies := [], notInEffectPolicies := [] }

/-- One iteration of the crafting loop (lines 298-368): the overall status
counts are updated for every policy; the enforcement-level switch places
the result in its bucket and updates the per-level counters (the UNKNOWN
case only logs).  The nested switches are rendered as one conditional
increment per counter; the conditions are exactly the reachable
switch-case combinations. -/
def craftStep (levelOf : String → String) (s : CraftState) (r : PolicyResult) :
    CraftState :=
  { totalCnt := s.totalCnt + 1
    successCnt := s.successCnt + (if r.evaluationStatus == "pass" then 1 else 0)
    failedCnt := s.failedCnt + (if r.evaluationStatus == "fail" then 1 else 0)
    erroredCnt := s.erroredCnt + (if r.evaluationStatus == "error" then 1 else 0)
    omittedCnt := s.omittedCnt +
      (if levelOf r.policyId == POLICY_LEVEL_OVERRIDE
          || levelOf r.policyId == POLICY_LEVEL_NOT_IN_EFFECT then 1 else 0)
    blockingSuccessCnt := s.blockingSuccessCnt +
      (if levelOf r.policyId == POLICY_LEVEL_BLOCK && r.evaluationStatus == "pass" then 1 else 0)
    blockingFailedCnt := s.blockingFailedCnt +
      (if levelOf r.policyId == POLICY_LEVEL_BLOCK && r.evaluationStatus == "fail" then 1 else 0)
    blockingErroredCnt := s.blockingErroredCnt +
      (if levelOf r.policyId == POLICY_LEVEL_BLOCK && r.evaluationStatus == "error" then 1 else 0)
    warningSuccessCnt := s.warningSuccessCnt +
      (if levelOf r.policyId == POLICY_LEVEL_WARNING && r.evaluationStatus == "pass" then 1 else 0)
    warningFailedCnt := s.warningFailedCnt +
      (if levelOf r.policyId == POLICY_LEVEL_WARNING && r.evaluationStatus == "fail" then 1 else 0)
    warningErroredCnt := s.warningErroredCnt +
      (if levelOf r.policyId == POLICY_LEVEL_WARNING && r.evaluationStatus == "error" then 1 else 0)
    recommendSuccessCnt := s.recommendSuccessCnt +
      (if levelOf r.policyId == POLICY_LEVEL_RECOMMEND && r.evaluationStatus == "pass" then 1 else 0)
    recommendFailedCnt := s.recommendFailedCnt +
      (if levelOf r.policyId == POLICY_LEVEL_RECOMMEND && r.evaluationStatus == "fail" then 1 else 0)
    recommendErroredCnt := s.recommendErroredCnt +
      (if levelOf r.policyId == POLICY_LEVEL_RECOMMEND && r.evaluationStatus == "error" then 1 else 0)
    overriddenSuccessCnt := s.overriddenSuccessCnt +
      (if levelOf r.policyId == POLICY_LEVEL_OVERRIDE && r.evaluationStatus == "pass" then 1 else 0)
    overriddenFailedCnt := s.overriddenFailedCnt +
      (if levelOf r.policyId == POLICY_LEVEL_OVERRIDE && r.evaluationStatus == "fail" then 1 else 0)
    overriddenErroredCnt := s.overriddenErroredCnt +
      (if levelOf r.policyId == POLICY_LEVEL_OVERRIDE && r.evaluationStatus == "error" then 1 else 0)
    notInEffectSuccessCnt := s.notInEffectSuccessCnt +
      (if levelOf r.policyId == POLICY_LEVEL_NOT_IN_EFFECT && r.evaluationStatus == "pass" then 1 else 0)
    notInEffectFailedCnt := s.notInEffectFailedCnt +
      (if levelOf r.policyId == POLICY_LEVEL_NOT_IN_EFFECT && r.evaluationStatus == "fail" then 1 else 0)
    notInEffectErroredCnt := s.notInEffectErroredCnt +
      (if levelOf r.policyId == POLICY_LEVEL_NOT_IN_EFFECT && r.evaluationStatus == "error" then 1 else 0)
    blockingPolicies := s.blockingPolicies ++
      (if levelOf r.policyId == POLICY_LEVEL_BLOCK then [r] else [])
    warningPolicies := s.warningPolicies ++
      (if levelOf r.policyId == POLICY_LEVEL_WARNING then [r] else [])
    recommendPolicies := s.recommendPolicies ++
      (if levelOf r.policyId == POLICY_LEVEL_RECOMMEND then [r] else [])
    overriddenPolicies := s.overriddenPolicies ++
      (if levelOf r.policyId == POLICY_LEVEL_OVERRIDE then [r] else [])
    notInEffectPolicies := s.notInEffectPolicies ++
      (if levelOf r.policyId == POLICY_LEVEL_NOT_IN_EFFECT then [r] else []) }

/-- The crafting loop over the per-policy results of one overlay. -/
def craftFold (levelOf : String → String) (results : List PolicyResult)
    (s : CraftState) : CraftState :=
  results.foldl (craftStep levelOf) s

/-- The PolicyMatrix assembled from the loop state (lines 369-375). -/
def mkMatrix (s : CraftState) : PolicyMatrix :=
  { blockingPolicies := s.blockingPolicies
    warningPolicies := s.warningPolicies
    recommendPolicies := s.recommendPolicies
    overriddenPolicies := s.overriddenPolicies
    notInEffectPolicies := s.notInEffectPolicies }

/-- The EnvironmentSummaryEnv assembled from the loop state (lines
377-408), including the three clean gates and the derived omitted sums. -/
def mkSummary (s : CraftState) : EnvironmentSummaryEnv :=
  { passingStatus :=
      { passBlockingCheck := s.blockingFailedCnt == 0 && s.blockingErroredCnt == 0
        passWarningCheck := s.warningFailedCnt == 0 && s.warningErroredCnt == 0
        passRecommendCheck := s.recommendFailedCnt == 0 && s.recommendErroredCnt == 0 }
    policyCounts :=
      { totalCount := s.totalCnt
        totalSuccess := s.successCnt
        totalFailed := s.failedCnt
        totalErrored := s.erroredCnt
        totalOmitted := s.omittedCnt
        totalOmittedFailed := s.overriddenFailedCnt + s.notInEffectFailedCnt
        totalOmittedSuccess := s.overriddenSuccessCnt + s.notInEffectSuccessCnt
        blockingSuccessCount := s.blockingSuccessCnt
        blockingFailedCount := s.blockingFailedCnt
        blockingErroredCount := s.blockingErroredCnt
        warningSuccessCount := s.warningSuccessCnt
        warningFailedCount := s.warningFailedCnt
        warningErroredCount := s.warningErroredCnt
        recommendSuccessCount := s.recommendSuccessCnt
        recommendFailedCount := s.recommendFailedCnt
        recommendErroredCount := s.recommendErroredCnt
        overriddenSuccessCount := s.overriddenSuccessCnt
        overriddenFailedCount := s.overriddenFailedCnt
        overriddenErroredCount := s.overriddenErroredCnt
        notInEffectSuccessCount := s.notInEffectSuccessCnt
        notInEffectFailedCount := s.notInEffectFailedCnt
        notInEffectErroredCount := s.notInEffectErroredCnt } }

/-- Phase 3 for one overlay: run the crafting loop and assemble the matrix
and summary. -/
def craftEnv (levelOf : String → String) (results : List PolicyResult) :
    PolicyMatrix × EnvironmentSummaryEnv :=
  let s := craftFold levelOf results initCraftState
  (mkMatrix s, mkSummary s)

/-- models.PolicyEvaluation, with the env-keyed maps as association lists. -/
structure PolicyEvaluation where
  environmentSummary : List (String × EnvironmentSummaryEnv)
  policyMatrix : List (String × PolicyMatrix)
deriving DecidableEq, Repr

/-- GeneratePolicyEvalResultForManifests.  `build` is the overlay-keyed
manifest map; `ovMap` the override-command map from LoadAndValidate;
`oracle` the external conftest collaborator; `now` the evaluation time.
The crafting loop ranges over the Go map `envToPolicyIdToResult[env]`,
whose iteration order is unspecified: `iter` supplies, per overlay, the
order in which that map's values are visited (a permutation of the
per-overlay result list). -/
def generatePolicyEvalResult (cfg : List (String × PolicyConfig))
    (ovMap : List (String × String)) (oracle : String → String → PolicyEvalResult)
    (build : List (String × BuildEnvManifestResult)) (comments : List String)
    (now : Int) (iter : String → List PolicyResult → List PolicyResult) :
    PolicyEvaluation :=
  let levels := determineEnforcementLevel cfg ovMap comments now
  let levelOf := fun id => (alookup levels id).getD ""
  { environmentSummary := build.map
      (fun em => (em.1, (craftEnv levelOf (iter em.1 (evalEnvResults cfg oracle em.2))).2))
    policyMatrix := build.map
      (fun em => (em.1, (craftEnv levelOf (iter em.1 (evalEnvResults cfg oracle em.2))).1)) }

/-- The crafting loop counts every policy result. -/
theorem craftFold_totalCnt (lvl : String → String) (l : List PolicyResult) (s : CraftState) :
    (craftFold lvl l s).totalCnt = s.totalCnt + l.length := by
  induction l generalizing s with
  | nil => simp [craftFold]
  | cons r t ih =>
    rw [craftFold, List.foldl_cons, ← craftFold, ih]
    simp [craftStep]
    omega

theorem craftFold_successCnt (lvl : String → String) (l : List PolicyResult) (s : CraftState) :
    (craftFold lvl l s).successCnt =
      s.successCnt + l.countP (fun r => r.evaluationStatus == "pass") := by
  induction l generalizing s with
  | nil => simp [craftFold]
  | cons r t ih =>
    rw [craftFold, List.foldl_cons, ← craftFold, ih, List.countP_cons]
    simp only [craftStep]
    omega

theorem craftFold_failedCnt (lvl : String → String) (l : List PolicyResult) (s : CraftState) :
    (craftFold lvl l s).failedCnt =
      s.failedCnt + l.countP (fun r => r.evaluationStatus == "fail") := by
  induction l generalizing s with
  | nil => simp [craftFold]
  | cons r t ih =>
    rw [craftFold, List.foldl_cons, ← craftFold, ih, List.countP_cons]
    simp only [craftStep]
    omega

theorem craftFold_erroredCnt (lvl : String → String) (l : List PolicyResult) (s : CraftState) :
    (craftFold lvl l s).erroredCnt =
      s.erroredCnt + l.countP (fun r => r.evaluationStatus == "error") := by
  induction l generalizing s with
  | nil => simp [craftFold]
  | cons r t ih =>
    rw [craftFold, List.foldl_cons, ← craftFold, ih, List.countP_cons]
    simp only [craftStep]
    omega

theorem craftFold_omittedCnt (lvl : String → String) (l : List PolicyResult) (s : CraftState) :
    (craftFold lvl l s).omittedCnt =
      s.omittedCnt + l.countP (fun r => lvl r.policyId == POLICY_LEVEL_OVERRIDE
        || lvl r.policyId == POLICY_LEVEL_NOT_IN_EFFECT) := by
  induction l generalizing s with
  | nil => simp [craftFold]
  | cons r t ih =>
    rw [craftFold, List.foldl_cons, ← craftFold, ih, List.countP_cons]
    simp only [craftStep]
    omega

theorem craftFold_blockingSuccessCnt (lvl : String → String) (l : List PolicyResult) (s : CraftState) :
    (craftFold lvl l s).blockingSuccessCnt =
      s.blockingSuccessCnt + l.countP (fun r => lvl r.policyId == POLICY_LEVEL_BLOCK
        && r.evaluationStatus == "pass") := by
  induction l generalizing s with
  | nil => simp [craftFold]
  | cons r t ih =>
    rw [craftFold, List.foldl_cons, ← craftFold, ih, List.countP_cons]
    simp only [craftStep]
    omega

theorem craftFold_blockingFailedCnt (lvl : String → String) (l : List PolicyResult) (s : CraftState) :
    (craftFold lvl l s).blockingFailedCnt =
      s.blockingFailedCnt + l.countP (fun r => lvl r.policyId == POLICY_LEVEL_BLOCK
        && r.evaluationStatus == "fail") := by
  induction l generalizing s with
  | nil => simp [craftFold]
  | cons r t ih =>
    rw [craftFold, List.foldl_cons, ← craftFold, ih, List.countP_cons]
    simp only [craftStep]
    omega

theorem craftFold_blockingErroredCnt (lvl : String → String) (l : List PolicyResult) (s : CraftState) :
    (craftFold lvl l s).blockingErroredCnt =
      s.blockingErroredCnt + l.countP (fun r => lvl r.policyId == POLICY_LEVEL_BLOCK
        && r.evaluationStatus == "error") := by
  induction l generalizing s with
  | nil => simp [craftFold]
  | cons r t ih =>
    rw [craftFold, List.foldl_cons, ← craftFold, ih, List.countP_cons]
    simp only [craftStep]
    omega

theorem craftFold_warningSuccessCnt (lvl : String → String) (l : List PolicyResult) (s : CraftState) :
    (craftFold lvl l s).warningSuccessCnt =
      s.warningSuccessCnt + l.countP (fun r => lvl r.policyId == POLICY_LEVEL_WARNING
        && r.evaluationStatus == "pass") := by
  induction l generalizing s with
  | nil => simp [craftFold]
  | cons r t ih =>
    rw [craftFold, List.foldl_cons, ← craftFold, ih, List.countP_cons]
    simp only [craftStep]
    omega

theorem craftFold_warningFailedCnt (lvl : String → String) (l : List PolicyResult) (s : CraftState) :
    (craftFold lvl l s).warningFailedCnt =
      s.warningFailedCnt + l.countP (fun r => lvl r.policyId == POLICY_LEVEL_WARNING
        && r.evaluationStatus == "fail") := by
  induction l generalizing s with
  | nil => simp [craftFold]
  | cons r t ih =>
    rw [craftFold, List.foldl_cons, ← craftFold, ih, List.countP_cons]
    simp only [craftStep]
    omega

theorem craftFold_warningErroredCnt (lvl : String → String) (l : List PolicyResult) (s : CraftState) :
    (craftFold lvl l s).warningErroredCnt =
      s.warningErroredCnt + l.countP (fun r => lvl r.policyId == POLICY_LEVEL_WARNING
        && r.evaluationStatus == "error") := by
  induction l generalizing s with
  | nil => simp [craftFold]
  | cons r t ih =>
    rw [craftFold, List.foldl_cons, ← craftFold, ih, List.countP_cons]
    simp only [craftStep]
    omega

theorem craftFold_recommendSuccessCnt (lvl : String → String) (l : List PolicyResult) (s : CraftState) :
    (craftFold lvl l s).recommendSuccessCnt =
      s.recommendSuccessCnt + l.countP (fun r => lvl r.policyId == POLICY_LEVEL_RECOMMEND
        && r.evaluationStatus == "pass") := by
  induction l generalizing s with
  | nil => simp [craftFold]
  | cons r t ih =>
    rw [craftFold, List.foldl_cons, ← craftFold, ih, List.countP_cons]
    simp only [craftStep]
    omega

theorem craftFold_recommendFailedCnt (lvl : String → String) (l : List PolicyResult) (s : CraftState) :
    (craftFold lvl l s).recommendFailedCnt =
      s.recommendFailedCnt + l.countP (fun r => lvl r.policyId == POLICY_LEVEL_RECOMMEND
        && r.evaluationStatus == "fail") := by
  induction l generalizing s with
  | nil => simp [craftFold]
  | cons r t ih =>
    rw [craftFold, List.foldl_cons, ← craftFold, ih, List.countP_cons]
    simp only [craftStep]
    omega

theorem craftFold_recommendErroredCnt (lvl : String → String) (l : List PolicyResult) (s : CraftState) :
    (craftFold lvl l s).recommendErroredCnt =
      s.recommendErroredCnt + l.countP (fun r => lvl r.policyId == POLICY_LEVEL_RECOMMEND
        && r.evaluationStatus == "error") := by
  induction l generalizing s with
  | nil => simp [craftFold]
  | cons r t ih =>
    rw [craftFold, List.foldl_cons, ← craftFold, ih, List.countP_cons]
    simp only [craftStep]
    omega

theorem craftFold_overriddenSuccessCnt (lvl : String → String) (l : List PolicyResult) (s : CraftState) :
    (craftFold lvl l s).overriddenSuccessCnt =
      s.overriddenSuccessCnt + l.countP (fun r => lvl r.policyId == POLICY_LEVEL_OVERRIDE
        && r.evaluationStatus == "pass") := by
  induction l generalizing s with
  | nil => simp [craftFold]
  | cons r t ih =>
    rw [craftFold, List.foldl_cons, ← craftFold, ih, List.countP_cons]
    simp only [craftStep]
    omega

theorem craftFold_overriddenFailedCnt (lvl : String → String) (l : List PolicyResult) (s : CraftState) :
    (craftFold lvl l s).overriddenFailedCnt =
      s.overriddenFailedCnt + l.countP (fun r => lvl r.policyId == POLICY_LEVEL_OVERRIDE
        && r.evaluationStatus == "fail") := by
  induction l generalizing s with
  | nil => simp [craftFold]
  | cons r t ih =>
    rw [craftFold, List.foldl_cons, ← craftFold, ih, List.countP_cons]
    simp only [craftStep]
    omega

theorem craftFold_overriddenErroredCnt (lvl : String → String) (l : List PolicyResult) (s : CraftState) :
    (craftFold lvl l s).overriddenErroredCnt =
      s.overriddenErroredCnt + l.countP (fun r => lvl r.policyId == POLICY_LEVEL_OVERRIDE
        && r.evaluationStatus == "error") := by
  induction l generalizing s with
  | nil => simp [craftFold]
  | cons r t ih =>
    rw [craftFold, List.foldl_cons, ← craftFold, ih, List.countP_cons]
    simp only [craftStep]
    omega

theorem craftFold_notInEffectSuccessCnt (lvl : String → String) (l : List PolicyResult) (s : CraftState) :
    (craftFold lvl l s).notInEffectSuccessCnt =
      s.notInEffectSuccessCnt + l.countP (fun r => lvl r.policyId == POLICY_LEVEL_NOT_IN_EFFECT
        && r.evaluationStatus == "pass") := by
  induction l generalizing s with
  | nil => simp [craftFold]
  | cons r t ih =>
    rw [craftFold, List.foldl_cons, ← craftFold, ih, List.countP_cons]
    simp only [craftStep]
    omega

theorem craftFold_notInEffectFailedCnt (lvl : String → String) (l : List PolicyResult) (s : CraftState) :
    (craftFold lvl l s).notInEffectFailedCnt =
      s.notInEffectFailedCnt + l.countP (fun r => lvl r.policyId == POLICY_LEVEL_NOT_IN_EFFECT
        && r.evaluationStatus == "fail") := by
  induction l generalizing s with
  | nil => simp [craftFold]
  | cons r t ih =>
    rw [craftFold, List.foldl_cons, ← craftFold, ih, List.countP_cons]
    simp only [craftStep]
    omega

theorem craftFold_notInEffectErroredCnt (lvl : String → String) (l : List PolicyResult) (s : CraftState) :
    (craftFold lvl l s).notInEffectErroredCnt =
      s.notInEffectErroredCnt + l.countP (fun r => lvl r.policyId == POLICY_LEVEL_NOT_IN_EFFECT
        && r.evaluationStatus == "error") := by
  induction l generalizing s with
  | nil => simp [craftFold]
  | cons r t ih =>
    rw [craftFold, List.foldl_cons, ← craftFold, ih, List.countP_cons]
    simp only [craftStep]
    omega

theorem craftFold_blockingPolicies (lvl : String → String) (l : List PolicyResult) (s : CraftState) :
    (craftFold lvl l s).blockingPolicies =
      s.blockingPolicies ++ l.filter (fun r => lvl r.policyId == POLICY_LEVEL_BLOCK) := by
  induction l generalizing s with
  | nil => simp [craftFold]
  | cons r t ih =>
    rw [craftFold, List.foldl_cons, ← craftFold, ih, List.filter_cons]
    simp only [craftStep]
    by_cases h : (lvl r.policyId == POLICY_LEVEL_BLOCK) = true
    · simp [h]
    · simp [h]

theorem craftFold_warningPolicies (lvl : String → String) (l : List PolicyResult) (s : CraftState) :
    (craftFold lvl l s).warningPolicies =
      s.warningPolicies ++ l.filter (fun r => lvl r.policyId == POLICY_LEVEL_WARNING) := by
  induction l generalizing s with
  | nil => simp [craftFold]
  | cons r t ih =>
    rw [craftFold, List.foldl_cons, ← craftFold, ih, List.filter_cons]
    simp only [craftStep]
    by_cases h : (lvl r.policyId == POLICY_LEVEL_WARNING) = true
    · simp [h]
    · simp [h]

theorem craftFold_recommendPolicies (lvl : String → String) (l : List PolicyResult) (s : CraftState) :
    (craftFold lvl l s).recommendPolicies =
      s.recommendPolicies ++ l.filter (fun r => lvl r.policyId == POLICY_LEVEL_RECOMMEND) := by
  induction l generalizing s with
  | nil => simp [craftFold]
  | cons r t ih =>
    rw [craftFold, List.foldl_cons, ← craftFold, ih, List.filter_cons]
    simp only [craftStep]
    by_cases h : (lvl r.policyId == POLICY_LEVEL_RECOMMEND) = true
    · simp [h]
    · simp [h]

theorem craftFold_overriddenPolicies (lvl : String → String) (l : List PolicyResult) (s : CraftState) :
    (craftFold lvl l s).overriddenPolicies =
      s.overriddenPolicies ++ l.filter (fun r => lvl r.policyId == POLICY_LEVEL_OVERRIDE) := by
  induction l generalizing s with
  | nil => simp [craftFold]
  | cons r t ih =>
    rw [craftFold, List.foldl_cons, ← craftFold, ih, List.filter_cons]
    simp only [craftStep]
    by_cases h : (lvl r.policyId == POLICY_LEVEL_OVERRIDE) = true
    · simp [h]
    · simp [h]

theorem craftFold_notInEffectPolicies (lvl : String → String) (l : List PolicyResult) (s : CraftState) :
    (craftFold lvl l s).notInEffectPolicies =
      s.notInEffectPolicies ++ l.filter (fun r => lvl r.policyId == POLICY_LEVEL_NOT_IN_EFFECT) := by
  induction l generalizing s with
  | nil => simp [craftFold]
  | cons r t ih =>
    rw [craftFold, List.foldl_cons, ← craftFold, ih, List.filter_cons]
    simp only [craftStep]
    by_cases h : (lvl r.policyId == POLICY_LEVEL_NOT_IN_EFFECT) = true
    · simp [h]
    · simp [h]

/-- The per-overlay summary does not depend on the order in which the
crafting loop visits the result map. -/
theorem mkSummary_perm (lvl : String → String) {l1 l2 : List PolicyResult}
    (h : l1.Perm l2) :
    mkSummary (craftFold lvl l1 initCraftState) =
      mkSummary (craftFold lvl l2 initCraftState) := by
  have hcount : ∀ (p : PolicyResult → Bool), l1.countP p = l2.countP p :=
    fun p => h.countP_eq p
  have hlen : l1.length = l2.length := h.length_eq
  simp only [mkSummary, craftFold_totalCnt, craftFold_successCnt, craftFold_failedCnt,
    craftFold_erroredCnt, craftFold_omittedCnt,
    craftFold_blockingSuccessCnt, craftFold_blockingFailedCnt, craftFold_blockingErroredCnt,
    craftFold_warningSuccessCnt, craftFold_warningFailedCnt, craftFold_warningErroredCnt,
    craftFold_recommendSuccessCnt, craftFold_recommendFailedCnt, craftFold_recommendErroredCnt,
    craftFold_overriddenSuccessCnt, craftFold_overriddenFailedCnt, craftFold_overriddenErroredCnt,
    craftFold_notInEffectSuccessCnt, craftFold_notInEffectFailedCnt,
    craftFold_notInEffectErroredCnt, hcount, hlen]

/-- The five buckets are permutations of each other across two visit
orders of the crafting loop. -/
theorem mkMatrix_perm (lvl : String → String) {l1 l2 : List PolicyResult}
    (h : l1.Perm l2) :
    (mkMatrix (craftFold lvl l1 initCraftState)).blockingPolicies.Perm
      (mkMatrix (craftFold lvl l2 initCraftState)).blockingPolicies ∧
    (mkMatrix (craftFold lvl l1 initCraftState)).warningPolicies.Perm
      (mkMatrix (craftFold lvl l2 initCraftState)).warningPolicies ∧
    (mkMatrix (craftFold lvl l1 initCraftState)).recommendPolicies.Perm
      (mkMatrix (craftFold lvl l2 initCraftState)).recommendPolicies ∧
    (mkMatrix (craftFold lvl l1 initCraftState)).overriddenPolicies.Perm
      (mkMatrix (craftFold lvl l2 initCraftState)).overriddenPolicies ∧
    (mkMatrix (craftFold lvl l1 initCraftState)).notInEffectPolicies.Perm
      (mkMatrix (craftFold lvl l2 initCraftState)).notInEffectPolicies := by
  simp only [mkMatrix, craftFold_blockingPolicies, craftFold_warningPolicies,
    craftFold_recommendPolicies, craftFold_overriddenPolicies,
    craftFold_notInEffectPolicies, initCraftState, List.nil_append]
  exact ⟨h.filter _, h.filter _, h.filter _, h.filter _, h.filter _⟩

end Policy

namespace Runner

open Policy

/-- Outcome of one kustomize build invocation (the external collaborator):
a manifest, the distinguished ErrOverlayNotFound, or another error. -/
inductive BuildOutcome where
  | ok (manifest : String)
  | notFound
  | err (msg : String)
deriving DecidableEq, Repr

/-- models.BuildManifestResult: overlay-keyed build results plus the
ordered overlay-key list. -/
structure BuildManifestResult where
  envManifestBuild : List (String × BuildEnvManifestResult)
  overlayKeys : List String
deriving DecidableEq, Repr

/-- The per-key body of the buildManifestsLocalDynamic loop (local.go lines
163-223): a build error other than not-found aborts the run; both sides
not found marks the overlay skipped with its reason; one side not found is
replaced by the empty manifest. -/
def buildEntry (builder : String → BuildOutcome) (k beforePath afterPath : String) :
    Except String BuildEnvManifestResult :=
  match builder beforePath with
  | .err e => .error e
  | bres =>
    match builder afterPath with
    | .err e => .error e
    | ares =>
      match bres, ares with
      | .notFound, .notFound =>
        .ok { overlayKey := k, environment := k, fullBuildPath := afterPath
              beforeManifest := "", afterManifest := ""
              skipped := true
              skipReason := "overlay not found in both before and after paths" }
      | _, _ =>
        .ok { overlayKey := k, environment := k, fullBuildPath := afterPath
              beforeManifest := match bres with | .ok m => m | _ => ""
              afterManifest := match ares with | .ok m => m | _ => ""
              skipped := false, skipReason := "" }

/-- The overlay loop of buildManifestsLocalDynamic; a missing key in a path
map reads as Go's zero value "". -/
def buildLoop (builder : String → BuildOutcome)
    (beforeMap afterMap : List (String × String)) :
    List String → List (String × BuildEnvManifestResult) →
    Except String (List (String × BuildEnvManifestResult))
  | [], acc => .ok acc
  | k :: rest, acc =>
    match buildEntry builder k ((alookup beforeMap k).getD "") ((alookup afterMap k).getD "") with
    | .error e => .error e
    | .ok entry => buildLoop builder beforeMap afterMap rest (setAssoc acc k entry)

/-- buildManifestsLocalDynamic (local.go lines 111-230): resolve the two
template sides, union the overlay keys (before-side order first, unmatched
after-side keys appended), and build every overlay. -/
def buildManifestsLocalDynamic (beforeCombos afterCombos : List Pathbuilder.PathCombination)
    (builder : String → BuildOutcome) : Except String BuildManifestResult :=
  let afterPathMap := afterCombos.foldl (fun m c => setAssoc m c.overlayKey c.path) []
  let beforePathMap := beforeCombos.foldl (fun m c => setAssoc m c.overlayKey c.path) []
  let overlayKeys := beforeCombos.map (fun c => c.overlayKey) ++
    (afterCombos.filter (fun c => (alookup beforePathMap c.overlayKey).isNone)).map
      (fun c => c.overlayKey)
  match buildLoop builder beforePathMap afterPathMap overlayKeys [] with
  | .error e => .error e
  | .ok results => .ok { envManifestBuild := results, overlayKeys := overlayKeys }

end Runner

section AssocLemmas

theorem alookup_cons {α : Type} (k' : String) (v : α) (m : List (String × α)) (k : String) :
    alookup ((k', v) :: m) k = if k' == k then some v else alookup m k := by
  by_cases h : k' == k <;> simp [alookup, List.find?_cons, h]

theorem alookup_append {α : Type} (m1 m2 : List (String × α)) (k : String) :
    alookup (m1 ++ m2) k =
      match alookup m1 k with
      | some v => some v
      | none => alookup m2 k := by
  induction m1 with
  | nil => simp [alookup]
  | cons kv rest ih =>
    rcases kv with ⟨k', v⟩
    by_cases h : k' == k <;> simp [alookup_cons, h, ih]

theorem alookup_append_some {α : Type} {m1 : List (String × α)} {k : String} {v : α}
    (m2 : List (String × α)) (h : alookup m1 k = some v) :
    alookup (m1 ++ m2) k = some v := by
  rw [alookup_append, h]

theorem alookup_append_none {α : Type} {m1 : List (String × α)} {k : String}
    (m2 : List (String × α)) (h : alookup m1 k = none) :
    alookup (m1 ++ m2) k = alookup m2 k := by
  rw [alookup_append, h]

theorem alookup_setAssoc_self {α : Type} (m : List (String × α)) (k : String) (v : α) :
    alookup (setAssoc m k v) k = some v := by
  induction m with
  | nil => simp [setAssoc, alookup_cons]
  | cons kv rest ih =>
    rcases kv with ⟨k', v'⟩
    by_cases h : k' == k <;> simp [setAssoc, h, alookup_cons, ih]

theorem alookup_setAssoc_ne {α : Type} (m : List (String × α)) (k k' : String) (v : α)
    (h : k' ≠ k) : alookup (setAssoc m k v) k' = alookup m k' := by
  have hb : (k == k') = false := beq_eq_false_iff_ne.mpr (Ne.symm h)
  induction m with
  | nil => simp [setAssoc, alookup_cons, hb, alookup]
  | cons kv rest ih =>
    rcases kv with ⟨k1, v1⟩
    by_cases h1 : (k1 == k) = true
    · have hk1 : k1 = k := by simpa using h1
      subst hk1
      simp [setAssoc, alookup_cons, hb]
    · have h1f : (k1 == k) = false := by simpa using h1
      simp [setAssoc, h1f, alookup_cons, ih]

end AssocLemmas

/-- C10: the empty template string contains zero placeholders, yet
GenerateAllPaths rejects it with the error "template cannot be empty"
instead of returning the single identity combination, for every variable
binding. -/
theorem C10_empty_template_is_error :
    Pathbuilder.parseTemplate "" = [] ∧
    ∀ vars : List (String × List String),
      Pathbuilder.generateAllPaths "" vars = .error "template cannot be empty" :=
  ⟨rfl, fun _ => rfl⟩

/-- C3 counterexample: on the spec's own example the generated OverlayKeys
join the values of ALL template variables (SERVICE included), so they are
my-app/alpha/stg …, not the claimed alpha/stg …. -/
theorem C3_counterexample :
    (Pathbuilder.parseValues "SERVICE=my-app;CLUSTER=alpha,beta;ENV=stg,prod" =
      .ok [("SERVICE", ["my-app"]), ("CLUSTER", ["alpha", "beta"]), ("ENV", ["stg", "prod"])]) ∧
    ((Pathbuilder.generateAllPaths "services/[SERVICE]/clusters/[CLUSTER]/[ENV]"
        [("SERVICE", ["my-app"]), ("CLUSTER", ["alpha", "beta"]), ("ENV", ["stg", "prod"])]).map
      (fun l => l.map (fun c => c.overlayKey)) =
      .ok ["my-app/alpha/stg", "my-app/alpha/prod", "my-app/beta/stg", "my-app/beta/prod"]) ∧
    (["my-app/alpha/stg", "my-app/alpha/prod", "my-app/beta/stg", "my-app/beta/prod"] :
      List String) ≠ ["alpha/stg", "alpha/prod", "beta/stg", "beta/prod"] :=
  ⟨rfl, rfl, by decide⟩

/-- C3 (amended): GenerateCombinations on the template
services/[SERVICE]/clusters/[CLUSTER]/[ENV] with bindings
SERVICE=my-app;CLUSTER=alpha,beta;ENV=stg,prod produces exactly 4
combinations, in the order alpha/stg, alpha/prod, beta/stg, beta/prod of
the CLUSTER/ENV choices, whose OverlayKeys join the chosen values of every
template variable in template order: my-app/alpha/stg, my-app/alpha/prod,
my-app/beta/stg, my-app/beta/prod. -/
theorem C3_amended :
    (Pathbuilder.parseValues "SERVICE=my-app;CLUSTER=alpha,beta;ENV=stg,prod" =
      .ok [("SERVICE", ["my-app"]), ("CLUSTER", ["alpha", "beta"]), ("ENV", ["stg", "prod"])]) ∧
    (Pathbuilder.generateAllPaths "services/[SERVICE]/clusters/[CLUSTER]/[ENV]"
        [("SERVICE", ["my-app"]), ("CLUSTER", ["alpha", "beta"]), ("ENV", ["stg", "prod"])] =
      .ok
        [{ path := "services/my-app/clusters/alpha/stg",
           values := [("SERVICE", "my-app"), ("CLUSTER", "alpha"), ("ENV", "stg")],
           overlayKey := "my-app/alpha/stg" },
         { path := "services/my-app/clusters/alpha/prod",
           values := [("SERVICE", "my-app"), ("CLUSTER", "alpha"), ("ENV", "prod")],
           overlayKey := "my-app/alpha/prod" },
         { path := "services/my-app/clusters/beta/stg",
           values := [("SERVICE", "my-app"), ("CLUSTER", "beta"), ("ENV", "stg")],
           overlayKey := "my-app/beta/stg" },
         { path := "services/my-app/clusters/beta/prod",
           values := [("SERVICE", "my-app"), ("CLUSTER", "beta"), ("ENV", "prod")],
           overlayKey := "my-app/beta/prod" }]) :=
  ⟨rfl, rfl⟩

/-- C8 counterexample: a bound value list with a duplicate value
(ENV=stg,stg) still yields k1 = 2 combinations, but they are identical,
refuting the pairwise-distinctness part of the claim. -/
theorem C8_counterexample :
    Pathbuilder.generateAllPaths "/path/[ENV]" [("ENV", ["stg", "stg"])] =
      .ok [{ path := "/path/stg", values := [("ENV", "stg")], overlayKey := "stg" },
           { path := "/path/stg", values := [("ENV", "stg")], overlayKey := "stg" }] ∧
    ¬ ([{ path := "/path/stg", values := [("ENV", "stg")], overlayKey := "stg" },
        { path := "/path/stg", values := [("ENV", "stg")], overlayKey := "stg" }] :
        List Pathbuilder.PathCombination).Nodup :=
  ⟨rfl, by decide⟩

/-- C8 (amended): a successful GenerateAllPaths returns exactly k1×…×kn
combinations, the product of the value-list sizes of the distinct
placeholder variables; they are pairwise distinct provided every bound
value list is itself duplicate-free. -/
theorem C8_cartesian_completeness (template : String)
    (vars : List (String × List String)) (l : List Pathbuilder.PathCombination)
    (hok : Pathbuilder.generateAllPaths template vars = .ok l)
    (hnd : ∀ v ∈ Pathbuilder.parseTemplate template, ((alookup vars v).getD []).Nodup) :
    l.length = ((Pathbuilder.parseTemplate template).map
      (fun v => ((alookup vars v).getD []).length)).prod ∧ l.Nodup := by
  unfold Pathbuilder.generateAllPaths at hok
  cases hv : Pathbuilder.validatePB template vars with
  | error e => rw [hv] at hok; cases hok
  | ok u =>
    rw [hv] at hok
    by_cases hemp : (Pathbuilder.parseTemplate template).isEmpty
    · rw [if_pos hemp] at hok
      cases hok
      rw [List.isEmpty_iff.mp hemp]
      exact ⟨rfl, by simp⟩
    · rw [if_neg hemp] at hok
      have hvals := Pathbuilder.buildCombos_values _ _ _ _ hok
      constructor
      · have hlen := congrArg List.length hvals
        rw [List.length_map] at hlen
        rw [hlen, Pathbuilder.genCombos_length]
      · have hcnd := Pathbuilder.genCombos_nodup vars _ hnd
        rw [← hvals] at hcnd
        exact hcnd.of_map _

/-- C8 witness: a concrete successful generation satisfying the
duplicate-free hypothesis. -/
theorem C8_cartesian_completeness_witness :
    (Pathbuilder.generateAllPaths "/p/[A]" [("A", ["x"])] =
      .ok [{ path := "/p/x", values := [("A", "x")], overlayKey := "x" }]) ∧
    ([{ path := "/p/x", values := [("A", "x")], overlayKey := "x" }] :
        List Pathbuilder.PathCombination).length =
      ((Pathbuilder.parseTemplate "/p/[A]").map
        (fun v => ((alookup [("A", ["x"])] v).getD []).length)).prod ∧
    ([{ path := "/p/x", values := [("A", "x")], overlayKey := "x" }] :
        List Pathbuilder.PathCombination).Nodup :=
  ⟨rfl,
    (C8_cartesian_completeness "/p/[A]" [("A", ["x"])]
      [{ path := "/p/x", values := [("A", "x")], overlayKey := "x" }] rfl (by decide)).1,
    (C8_cartesian_completeness "/p/[A]" [("A", ["x"])]
      [{ path := "/p/x", values := [("A", "x")], overlayKey := "x" }] rfl (by decide)).2⟩

namespace Policy

/-- Entries in the result of the override pass all carry OVERRIDE. -/
theorem overridePass_values (ovMap : List (String × String)) (comments : List String) :
    ∀ k v, alookup (overridePass ovMap comments) k = some v → v = POLICY_LEVEL_OVERRIDE := by
  unfold overridePass
  suffices h : ∀ (r0 : List (String × String)),
      (∀ k v, alookup r0 k = some v → v = POLICY_LEVEL_OVERRIDE) →
      ∀ k v, alookup (comments.foldl
        (fun r c =>
          match alookup ovMap c with
          | some pid => setAssoc r pid POLICY_LEVEL_OVERRIDE
          | none => r) r0) k = some v → v = POLICY_LEVEL_OVERRIDE by
    exact h [] (by intro k v hv; simp [alookup] at hv)
  induction comments with
  | nil => intro r0 h0; simpa using h0
  | cons c rest ih =>
    intro r0 h0
    simp only [List.foldl_cons]
    apply ih
    cases hc : alookup ovMap c with
    | none => simpa [hc] using h0
    | some pid =>
      simp only [hc]
      intro k v hv
      by_cases hk : k = pid
      · subst hk
        rw [alookup_setAssoc_self] at hv
        exact (Option.some_inj.mp hv).symm
      · rw [alookup_setAssoc_ne _ _ _ _ hk] at hv
        exact h0 k v hv

/-- The override pass never loses a binding. -/
theorem overridePass_isSome_mono (ovMap : List (String × String)) (comments : List String)
    (r0 : List (String × String)) (k : String) (h : (alookup r0 k).isSome) :
    (alookup (comments.foldl
      (fun r c =>
        match alookup ovMap c with
        | some pid => setAssoc r pid POLICY_LEVEL_OVERRIDE
        | none => r) r0) k).isSome := by
  induction comments generalizing r0 with
  | nil => simpa using h
  | cons c rest ih =>
    simp only [List.foldl_cons]
    apply ih
    cases hc : alookup ovMap c with
    | none => simpa [hc] using h
    | some pid =>
      simp only [hc]
      by_cases hk : k = pid
      · subst hk; rw [alookup_setAssoc_self]; rfl
      · rw [alookup_setAssoc_ne _ _ _ _ hk]; exact h

/-- A policy named by some observed override command is bound after the
override pass. -/
theorem overridePass_isSome (ovMap : List (String × String)) (comments : List String)
    (c pid : String) (hm : c ∈ comments) (hov : alookup ovMap c = some pid) :
    (alookup (overridePass ovMap comments) pid).isSome := by
  unfold overridePass
  suffices h : ∀ (r0 : List (String × String)), (alookup (comments.foldl
      (fun r c =>
        match alookup ovMap c with
        | some pid => setAssoc r pid POLICY_LEVEL_OVERRIDE
        | none => r) r0) pid).isSome by
    exact h []
  induction comments with
  | nil => cases hm
  | cons c' rest ih =>
    intro r0
    simp only [List.foldl_cons]
    rcases List.mem_cons.mp hm with hc' | hrest
    · subst hc'
      rw [hov]
      exact overridePass_isSome_mono ovMap rest _ pid (by rw [alookup_setAssoc_self]; rfl)
    · exact ih hrest _

/-- A policy mentioned by no observed override command is unbound after the
override pass. -/
theorem overridePass_none (ovMap : List (String × String)) (comments : List String)
    (pid : String) (h : ∀ c ∈ comments, alookup ovMap c ≠ some pid) :
    alookup (overridePass ovMap comments) pid = none := by
  unfold overridePass
  suffices hs : ∀ (r0 : List (String × String)), alookup r0 pid = none →
      alookup (comments.foldl
        (fun r c =>
          match alookup ovMap c with
          | some pid => setAssoc r pid POLICY_LEVEL_OVERRIDE
          | none => r) r0) pid = none by
    exact hs [] (by simp [alookup])
  induction comments with
  | nil => intro r0 h0; simpa using h0
  | cons c rest ih =>
    intro r0 h0
    simp only [List.foldl_cons]
    apply ih (fun c hc => h c (List.mem_cons_of_mem _ hc))
    cases hc : alookup ovMap c with
    | none => simpa [hc] using h0
    | some pid' =>
      simp only [hc]
      have hne : pid ≠ pid' := by
        intro he
        exact h c (List.mem_cons_self c rest) (by rw [hc, he])
      rw [alookup_setAssoc_ne _ _ _ _ hne]
      exact h0

/-- A successful LoadAndValidate run keeps every accumulated override
binding. -/
theorem loadOverrideMapGo_mono (cfg : List (String × PolicyConfig))
    (acc m : List (String × String)) (k v : String)
    (hok : loadOverrideMapGo acc cfg = .ok m) (h : alookup acc k = some v) :
    alookup m k = some v := by
  induction cfg generalizing acc with
  | nil =>
    unfold loadOverrideMapGo at hok
    cases hok
    exact h
  | cons idp rest ih =>
    rcases idp with ⟨id, p⟩
    unfold loadOverrideMapGo at hok
    by_cases hc : p.enforcement.overrideComment = ""
    · rw [if_pos hc] at hok
      exact ih acc hok h
    · rw [if_neg hc] at hok
      by_cases hdup : (alookup acc p.enforcement.overrideComment).isSome
      · rw [if_pos hdup] at hok
        cases hok
      · rw [if_neg hdup] at hok
        exact ih _ hok (alookup_append_some _ h)

/-- A successful LoadAndValidate run never re-registers a comment that a
later policy also declares. -/
theorem loadOverrideMapGo_no_dup (cfg : List (String × PolicyConfig))
    (acc m : List (String × String)) (id : String) (p : PolicyConfig)
    (hok : loadOverrideMapGo acc cfg = .ok m) (hmem : (id, p) ∈ cfg)
    (hc : p.enforcement.overrideComment ≠ "") :
    alookup acc p.enforcement.overrideComment = none := by
  induction cfg generalizing acc with
  | nil => cases hmem
  | cons idp rest ih =>
    rcases idp with ⟨id1, p1⟩
    unfold loadOverrideMapGo at hok
    rcases List.mem_cons.mp hmem with hhead | hrest
    · rcases Prod.mk.injEq .. ▸ hhead with ⟨h1, h2⟩
      subst h1; subst h2
      rw [if_neg hc] at hok
      by_cases hdup : (alookup acc p.enforcement.overrideComment).isSome
      · rw [if_pos hdup] at hok
        cases hok
      · exact Option.not_isSome_iff_eq_none.mp hdup
    · by_cases hc1 : p1.enforcement.overrideComment = ""
      · rw [if_pos hc1] at hok
        exact ih acc hok hrest
      · rw [if_neg hc1] at hok
        by_cases hdup : (alookup acc p1.enforcement.overrideComment).isSome
        · rw [if_pos hdup] at hok
          cases hok
        · rw [if_neg hdup] at hok
          have hacc' := ih _ hok hrest
          rw [alookup_append] at hacc'
          cases hlk : alookup acc p.enforcement.overrideComment with
          | none => rfl
          | some w => rw [hlk] at hacc'; cases hacc'

/-- After a successful LoadAndValidate, a policy's non-empty override
comment maps back to that policy's id. -/
theorem loadOverrideMap_lookup (cfg : List (String × PolicyConfig))
    (m : List (String × String)) (id : String) (p : PolicyConfig)
    (hok : loadOverrideMap cfg = .ok m) (hmem : (id, p) ∈ cfg)
    (hc : p.enforcement.overrideComment ≠ "") :
    alookup m p.enforcement.overrideComment = some id := by
  unfold loadOverrideMap at hok
  suffices hgen : ∀ (acc : List (String × String)),
      loadOverrideMapGo acc cfg = .ok m → (id, p) ∈ cfg →
      alookup acc p.enforcement.overrideComment = none →
      alookup m p.enforcement.overrideComment = some id by
    exact hgen [] hok hmem (by simp [alookup])
  clear hok hmem
  induction cfg with
  | nil => intro acc _ hmem; cases hmem
  | cons idp rest ih =>
    intro acc hok hmem hacc
    rcases idp with ⟨id1, p1⟩
    unfold loadOverrideMapGo at hok
    rcases List.mem_cons.mp hmem with hhead | hrest
    · rcases Prod.mk.injEq .. ▸ hhead with ⟨h1, h2⟩
      subst h1; subst h2
      rw [if_neg hc, if_neg (by rw [hacc]; simp)] at hok
      apply loadOverrideMapGo_mono rest _ m _ _ hok
      rw [alookup_append_none _ hacc, alookup_cons]
      simp
    · by_cases hc1 : p1.enforcement.overrideComment = ""
      · rw [if_pos hc1] at hok
        exact ih acc hok hrest hacc
      · rw [if_neg hc1] at hok
        by_cases hdup : (alookup acc p1.enforcement.overrideComment).isSome
        · rw [if_pos hdup] at hok
          cases hok
        · rw [if_neg hdup] at hok
          apply ih _ hok hrest
          have hne := loadOverrideMapGo_no_dup rest _ m id p hok hrest hc
          rw [alookup_append] at hne
          rw [alookup_append_none _ hacc]
          cases hlk : alookup [(p1.enforcement.overrideComment, id1)]
              p.enforcement.overrideComment with
          | none => rfl
          | some w =>
            rw [hacc, hlk] at hne
            exact hne

/-- The schedule pass never changes an existing binding. -/
theorem schedulePass_preserve (cfg : List (String × PolicyConfig)) (now : Int)
    (r0 : List (String × String)) (k : String) (v : String)
    (h : alookup r0 k = some v) : alookup (schedulePass cfg now r0) k = some v := by
  unfold schedulePass
  induction cfg generalizing r0 with
  | nil => simpa using h
  | cons idp rest ih =>
    simp only [List.foldl_cons]
    by_cases hs : (alookup r0 idp.1).isSome
    · simpa [hs] using ih r0 h
    · simp only [hs, if_false]
      exact ih _ (alookup_append_some _ h)

/-- A policy with no prior binding gets its schedule classification (ids
unique, as in a Go map). -/
theorem schedulePass_new (cfg : List (String × PolicyConfig)) (now : Int)
    (r0 : List (String × String)) (id : String) (p : PolicyConfig)
    (hmem : (id, p) ∈ cfg) (hnd : (cfg.map Prod.fst).Nodup)
    (h0 : alookup r0 id = none) :
    alookup (schedulePass cfg now r0) id = some (determineLevel p.enforcement now) := by
  induction cfg generalizing r0 with
  | nil => cases hmem
  | cons idp rest ih =>
    rcases idp with ⟨id', p'⟩
    simp only [List.map_cons, List.nodup_cons] at hnd
    rcases List.mem_cons.mp hmem with hhead | hrest
    · rcases Prod.mk.injEq .. ▸ hhead with ⟨h1, h2⟩
      subst h1; subst h2
      unfold schedulePass
      simp only [List.foldl_cons, h0, Option.isSome_none, Bool.false_eq_true, if_false]
      have hself : alookup (r0 ++ [(id, determineLevel p.enforcement now)]) id =
          some (determineLevel p.enforcement now) := by
        rw [alookup_append_none _ h0, alookup_cons]
        simp
      exact schedulePass_preserve rest now _ id _ hself
    · have hne : id' ≠ id := by
        intro he
        subst he
        exact hnd.1 (List.mem_map.mpr ⟨(id', p), hrest, rfl⟩)
      unfold schedulePass
      simp only [List.foldl_cons]
      by_cases hs : (alookup r0 id').isSome
      · simpa [hs] using ih r0 hrest hnd.2 h0
      · rw [if_neg hs]
        apply ih _ hrest hnd.2
        rw [alookup_append_none _ h0, alookup_cons]
        simp [hne, alookup]

end Policy

namespace Policy

/-- A successful validateAll validates every member policy. -/
theorem validateAll_mem (cfg : List (String × PolicyConfig)) (id : String)
    (p : PolicyConfig) (h : validateAll cfg = .ok ()) (hmem : (id, p) ∈ cfg) :
    validatePolicyCfg id p = .ok () := by
  induction cfg with
  | nil => cases hmem
  | cons idp rest ih =>
    unfold validateAll at h
    cases hv : validatePolicyCfg idp.1 idp.2 with
    | error e => rw [hv] at h; cases h
    | ok u =>
      cases u
      rw [hv] at h
      rcases List.mem_cons.mp hmem with hhead | hrest
      · subst hhead
        exact hv
      · exact ih h hrest

/-- A policy of a load-valid configuration satisfies both schedule
ordering guards. -/
theorem validatePolicyCfg_dates (id : String) (p : PolicyConfig)
    (h : validatePolicyCfg id p = .ok ()) :
    warnBeforeInEffect p.enforcement = false ∧ blockBeforeWarn p.enforcement = false := by
  unfold validatePolicyCfg at h
  split_ifs at h with h1 h2 h3 h4 h5 h6 h7
  exact ⟨by simpa using h5, by simpa using h6⟩

/-- The load-valid schedule guards, read back as inequalities. -/
theorem warnBeforeInEffect_false {e : EnforcementConfig} {tie w : Int}
    (hf : warnBeforeInEffect e = false) (hie : e.inEffectAfter = some tie)
    (hw : e.isWarningAfter = some w) : tie ≤ w := by
  unfold warnBeforeInEffect at hf
  rw [hie, hw] at hf
  simpa using hf

theorem blockBeforeWarn_false {e : EnforcementConfig} {w b : Int}
    (hf : blockBeforeWarn e = false) (hw : e.isWarningAfter = some w)
    (hb : e.isBlockingAfter = some b) : w ≤ b := by
  unfold blockBeforeWarn at hf
  rw [hw, hb] at hf
  simpa using hf

end Policy

/-- C1 counterexample: a load-valid policy with no inEffectAfter but a
satisfied isWarningAfter classifies as WARNING, not UNKNOWN, with no
override observed. -/
theorem C1_counterexample :
    (Policy.validateComplianceConfig
      [("p1", { name := "P1", description := "", ptype := "opa", filePath := "p1.rego",
                externalLink := "",
                enforcement := { inEffectAfter := none, isWarningAfter := some 0,
                                 isBlockingAfter := none, overrideComment := "" } })] = .ok ()) ∧
    (Policy.loadOverrideMap
      [("p1", { name := "P1", description := "", ptype := "opa", filePath := "p1.rego",
                externalLink := "",
                enforcement := { inEffectAfter := none, isWarningAfter := some 0,
                                 isBlockingAfter := none, overrideComment := "" } })] = .ok []) ∧
    (alookup (Policy.determineEnforcementLevel
      [("p1", { name := "P1", description := "", ptype := "opa", filePath := "p1.rego",
                externalLink := "",
                enforcement := { inEffectAfter := none, isWarningAfter := some 0,
                                 isBlockingAfter := none, overrideComment := "" } })]
      [] [] 5) "p1" = some Policy.POLICY_LEVEL_WARNING) ∧
    Policy.POLICY_LEVEL_WARNING ≠ Policy.POLICY_LEVEL_UNKNOWN :=
  ⟨rfl, rfl, rfl, by decide⟩

/-- C1 (amended): with no override observed for the policy,
DetermineEnforcementLevel assigns the schedule classification, and a
policy with no inEffectAfter classifies as UNKNOWN exactly when neither
isWarningAfter nor isBlockingAfter is present and satisfied at evaluation
time; a satisfied later threshold upgrades the level even without
inEffectAfter. -/
theorem C1_no_inEffect_unknown (cfg : List (String × Policy.PolicyConfig))
    (ovMap : List (String × String)) (comments : List String) (now : Int)
    (id : String) (p : Policy.PolicyConfig)
    (hmem : (id, p) ∈ cfg) (hnd : (cfg.map Prod.fst).Nodup)
    (hno : ∀ c ∈ comments, alookup ovMap c ≠ some id)
    (hie : p.enforcement.inEffectAfter = none) :
    alookup (Policy.determineEnforcementLevel cfg ovMap comments now) id =
      some (Policy.determineLevel p.enforcement now) ∧
    (Policy.determineLevel p.enforcement now = Policy.POLICY_LEVEL_UNKNOWN ↔
      ((∀ t, p.enforcement.isWarningAfter = some t → now < t) ∧
       (∀ t, p.enforcement.isBlockingAfter = some t → now < t))) := by
  constructor
  · exact Policy.schedulePass_new cfg now _ id p hmem hnd
      (Policy.overridePass_none ovMap comments id hno)
  · unfold Policy.determineLevel
    rw [hie]
    cases hw : p.enforcement.isWarningAfter with
    | none =>
      cases hb : p.enforcement.isBlockingAfter with
      | none => simp [Policy.POLICY_LEVEL_UNKNOWN]
      | some tb =>
        by_cases hnb : now < tb
        · simp [hnb, Policy.POLICY_LEVEL_UNKNOWN]
        · simp [hnb, Policy.POLICY_LEVEL_BLOCK, Policy.POLICY_LEVEL_UNKNOWN]
    | some tw =>
      cases hb : p.enforcement.isBlockingAfter with
      | none =>
        by_cases hnw : now < tw
        · simp [hnw, Policy.POLICY_LEVEL_UNKNOWN]
        · simp [hnw, Policy.POLICY_LEVEL_WARNING, Policy.POLICY_LEVEL_UNKNOWN]
      | some tb =>
        by_cases hnw : now < tw <;> by_cases hnb : now < tb <;>
          simp [hnw, hnb, Policy.POLICY_LEVEL_WARNING, Policy.POLICY_LEVEL_BLOCK,
            Policy.POLICY_LEVEL_UNKNOWN]

/-- C1 witness: the amended theorem applied to a concrete one-policy
configuration with a satisfied warning threshold and no comments. -/
theorem C1_no_inEffect_unknown_witness :
    (∀ c ∈ ([] : List String), alookup ([] : List (String × String)) c ≠ some "p1") ∧
    alookup (Policy.determineEnforcementLevel
      [("p1", { name := "P1", description := "", ptype := "opa", filePath := "p1.rego",
                externalLink := "",
                enforcement := { inEffectAfter := none, isWarningAfter := some 0,
                                 isBlockingAfter := none, overrideComment := "" } })]
      [] [] 5) "p1" =
      some (Policy.determineLevel
        { inEffectAfter := none, isWarningAfter := some 0,
          isBlockingAfter := none, overrideComment := "" } 5) :=
  ⟨(fun c hc => nomatch hc),
    (C1_no_inEffect_unknown
      [("p1", { name := "P1", description := "", ptype := "opa", filePath := "p1.rego",
                externalLink := "",
                enforcement := { inEffectAfter := none, isWarningAfter := some 0,
                                 isBlockingAfter := none, overrideComment := "" } })]
      [] [] 5 "p1"
      { name := "P1", description := "", ptype := "opa", filePath := "p1.rego",
        externalLink := "",
        enforcement := { inEffectAfter := none, isWarningAfter := some 0,
                         isBlockingAfter := none, overrideComment := "" } }
      (List.mem_singleton.mpr rfl) (by decide) (fun c hc => nomatch hc) rfl).1⟩

namespace Policy

/-- When the policy is not yet in effect and neither later threshold is
satisfied, the schedule classification is NOT_IN_EFFECT. -/
theorem determineLevel_not_in_effect (e : EnforcementConfig) (now tie : Int)
    (hie : e.inEffectAfter = some tie) (hlt : now < tie)
    (hw : ∀ t, e.isWarningAfter = some t → now < t)
    (hb : ∀ t, e.isBlockingAfter = some t → now < t) :
    determineLevel e now = POLICY_LEVEL_NOT_IN_EFFECT := by
  unfold determineLevel
  rw [hie]
  cases hwo : e.isWarningAfter with
  | none =>
    cases hbo : e.isBlockingAfter with
    | none => simp [hlt]
    | some tb => simp [hlt, hb tb hbo]
  | some tw =>
    cases hbo : e.isBlockingAfter with
    | none => simp [hlt, hw tw hwo]
    | some tb => simp [hlt, hw tw hwo, hb tb hbo]

end Policy

/-- C4 counterexample: a load-valid schedule (inEffectAfter = 10,
isWarningAfter absent, isBlockingAfter = 2 — the pairwise ordering guards
are vacuous) evaluated at now = 5 < inEffectAfter yields BLOCK, not
NOT_IN_EFFECT: the blocking check still runs after the not-in-effect
assignment. -/
theorem C4_counterexample :
    (Policy.validateComplianceConfig
      [("p1", { name := "P1", description := "", ptype := "opa", filePath := "p1.rego",
                externalLink := "",
                enforcement := { inEffectAfter := some 10, isWarningAfter := none,
                                 isBlockingAfter := some 2, overrideComment := "" } })] = .ok ()) ∧
    (alookup (Policy.determineEnforcementLevel
      [("p1", { name := "P1", description := "", ptype := "opa", filePath := "p1.rego",
                externalLink := "",
                enforcement := { inEffectAfter := some 10, isWarningAfter := none,
                                 isBlockingAfter := some 2, overrideComment := "" } })]
      [] [] 5) "p1" = some Policy.POLICY_LEVEL_BLOCK) ∧
    Policy.POLICY_LEVEL_BLOCK ≠ Policy.POLICY_LEVEL_NOT_IN_EFFECT :=
  ⟨rfl, rfl, by decide⟩

/-- C4 (amended): with no override observed, a load-valid policy whose
inEffectAfter is present and not yet reached classifies NOT_IN_EFFECT with
no later upgrade, provided additionally that isWarningAfter is present, or
isBlockingAfter is absent, or isBlockingAfter is not yet reached.  (In the
remaining load-valid case — isWarningAfter absent, isBlockingAfter present
and already reached — the code upgrades to BLOCK, as the counterexample
shows.) -/
theorem C4_not_in_effect_stops (cfg : List (String × Policy.PolicyConfig))
    (ovMap : List (String × String)) (comments : List String) (now tie : Int)
    (id : String) (p : Policy.PolicyConfig)
    (hv : Policy.validateComplianceConfig cfg = .ok ())
    (hmem : (id, p) ∈ cfg) (hnd : (cfg.map Prod.fst).Nodup)
    (hno : ∀ c ∈ comments, alookup ovMap c ≠ some id)
    (hie : p.enforcement.inEffectAfter = some tie)
    (hlt : now < tie)
    (hextra : p.enforcement.isWarningAfter ≠ none ∨ p.enforcement.isBlockingAfter = none ∨
      (∀ t, p.enforcement.isBlockingAfter = some t → now < t)) :
    alookup (Policy.determineEnforcementLevel cfg ovMap comments now) id =
      some Policy.POLICY_LEVEL_NOT_IN_EFFECT := by
  have hbridge := Policy.schedulePass_new cfg now _ id p hmem hnd
    (Policy.overridePass_none ovMap comments id hno)
  have hval : Policy.validatePolicyCfg id p = .ok () := by
    unfold Policy.validateComplianceConfig at hv
    by_cases he : cfg.isEmpty
    · rw [if_pos he] at hv
      exact Except.noConfusion hv
    · rw [if_neg he] at hv
      exact Policy.validateAll_mem cfg id p hv hmem
  have hdates := Policy.validatePolicyCfg_dates id p hval
  have hwAll : ∀ t, p.enforcement.isWarningAfter = some t → now < t := by
    intro t ht
    have := Policy.warnBeforeInEffect_false hdates.1 hie ht
    omega
  have hbAll : ∀ t, p.enforcement.isBlockingAfter = some t → now < t := by
    intro t ht
    cases hwo : p.enforcement.isWarningAfter with
    | some tw =>
      have h1 := Policy.warnBeforeInEffect_false hdates.1 hie hwo
      have h2 := Policy.blockBeforeWarn_false hdates.2 hwo ht
      omega
    | none =>
      rcases hextra with hx | hx | hx
      · exact absurd hwo hx
      · rw [hx] at ht; exact Option.noConfusion ht
      · exact hx t ht
  unfold Policy.determineEnforcementLevel
  rw [hbridge,
    Policy.determineLevel_not_in_effect p.enforcement now tie hie hlt hwAll hbAll]

/-- C4 witness: a fully-chained valid schedule (10 ≤ 20 ≤ 30) evaluated at
now = 5 before inEffectAfter. -/
theorem C4_not_in_effect_stops_witness :
    ((5 : Int) < 10) ∧
    alookup (Policy.determineEnforcementLevel
      [("p1", { name := "P1", description := "", ptype := "opa", filePath := "p1.rego",
                externalLink := "",
                enforcement := { inEffectAfter := some 10, isWarningAfter := some 20,
                                 isBlockingAfter := some 30, overrideComment := "" } })]
      [] [] 5) "p1" = some Policy.POLICY_LEVEL_NOT_IN_EFFECT :=
  ⟨by decide,
    C4_not_in_effect_stops
      [("p1", { name := "P1", description := "", ptype := "opa", filePath := "p1.rego",
                externalLink := "",
                enforcement := { inEffectAfter := some 10, isWarningAfter := some 20,
                                 isBlockingAfter := some 30, overrideComment := "" } })]
      [] [] 5 10 "p1"
      { name := "P1", description := "", ptype := "opa", filePath := "p1.rego",
        externalLink := "",
        enforcement := { inEffectAfter := some 10, isWarningAfter := some 20,
                         isBlockingAfter := some 30, overrideComment := "" } }
      rfl (List.mem_singleton.mpr rfl) (by decide) (fun c hc => nomatch hc) rfl
      (by decide) (Or.inl (by decide))⟩

/-- C6: if a policy's non-empty override phrase is among the observed
override signals, DetermineEnforcementLevel classifies it OVERRIDE for
every schedule configuration and every evaluation time. -/
theorem C6_override_supremacy (cfg : List (String × Policy.PolicyConfig))
    (ovMap : List (String × String)) (comments : List String) (now : Int)
    (id : String) (p : Policy.PolicyConfig)
    (hmem : (id, p) ∈ cfg)
    (hne : p.enforcement.overrideComment ≠ "")
    (hcm : p.enforcement.overrideComment ∈ comments)
    (hload : Policy.loadOverrideMap cfg = .ok ovMap) :
    alookup (Policy.determineEnforcementLevel cfg ovMap comments now) id =
      some Policy.POLICY_LEVEL_OVERRIDE := by
  have hov := Policy.loadOverrideMap_lookup cfg ovMap id p hload hmem hne
  have hsome := Policy.overridePass_isSome ovMap comments _ id hcm hov
  rcases Option.isSome_iff_exists.mp hsome with ⟨v, hv⟩
  have hval := Policy.overridePass_values ovMap comments id v hv
  subst hval
  exact Policy.schedulePass_preserve cfg now _ id _ hv

/-- C6 witness: a policy whose schedule alone would classify BLOCK is
forced to OVERRIDE by its observed phrase. -/
theorem C6_override_supremacy_witness :
    ("/ov" ∈ ["/ov"]) ∧
    alookup (Policy.determineEnforcementLevel
      [("p1", { name := "P1", description := "", ptype := "opa", filePath := "p1.rego",
                externalLink := "",
                enforcement := { inEffectAfter := some 0, isWarningAfter := some 0,
                                 isBlockingAfter := some 0, overrideComment := "/ov" } })]
      [("/ov", "p1")] ["/ov"] 5) "p1" = some Policy.POLICY_LEVEL_OVERRIDE :=
  ⟨by decide,
    C6_override_supremacy
      [("p1", { name := "P1", description := "", ptype := "opa", filePath := "p1.rego",
                externalLink := "",
                enforcement := { inEffectAfter := some 0, isWarningAfter := some 0,
                                 isBlockingAfter := some 0, overrideComment := "/ov" } })]
      [("/ov", "p1")] ["/ov"] 5 "p1"
      { name := "P1", description := "", ptype := "opa", filePath := "p1.rego",
        externalLink := "",
        enforcement := { inEffectAfter := some 0, isWarningAfter := some 0,
                         isBlockingAfter := some 0, overrideComment := "/ov" } }
      (List.mem_singleton.mpr rfl) (by decide) (by decide) rfl⟩

/-- C2 counterexample: an overlay key present on both sides whose after
manifest location is missing (but before exists) is NOT skipped: the
missing side becomes the empty manifest, and the overlay is then evaluated
against the real outcomes — with a failing policy outcome it records a
failure, not a vacuous pass. -/
theorem C2_counterexample :
    (Runner.buildManifestsLocalDynamic
      [{ path := "pb", values := [], overlayKey := "k" }]
      [{ path := "pa", values := [], overlayKey := "k" }]
      (fun p => if p = "pb" then .ok "m" else .notFound) =
      .ok { envManifestBuild := [("k",
              { overlayKey := "k", environment := "k", fullBuildPath := "pa",
                beforeManifest := "m", afterManifest := "", skipped := false,
                skipReason := "" })],
            overlayKeys := ["k"] }) ∧
    ((Policy.generatePolicyEvalResult
        [("p1", { name := "P1", description := "", ptype := "opa", filePath := "p1.rego",
                  externalLink := "",
                  enforcement := { inEffectAfter := some 0, isWarningAfter := none,
                                   isBlockingAfter := none, overrideComment := "" } })]
        [] (fun _ _ => { status := "fail", failMessages := ["violation"],
                         errorMessage := "", stdout := "", stderr := "" })
        [("k", { overlayKey := "k", environment := "k", fullBuildPath := "pa",
                 beforeManifest := "m", afterManifest := "", skipped := false,
                 skipReason := "" })]
        [] 5 (fun _ l => l)).environmentSummary.map
      (fun es => (es.1, es.2.policyCounts.totalFailed)) = [("k", 1)]) ∧
    (1 : Nat) ≠ 0 :=
  ⟨rfl, rfl, by decide⟩

/-- C2 (amended): an overlay whose manifest location is missing on exactly
one side (before only, or after only) is not an error but also not
skipped: the orchestrator substitutes the empty manifest for the missing
side and the overlay flows to normal policy evaluation; only an overlay
missing on both sides is marked skipped (with reason "overlay not found in
both before and after paths") and flows to the vacuous pass. -/
theorem C2_partial_overlay_not_skipped (builder : String → Runner.BuildOutcome)
    (k bp ap : String)
    (h : ((∃ m, builder bp = .ok m) ∧ builder ap = .notFound) ∨
         (builder bp = .notFound ∧ (∃ m, builder ap = .ok m))) :
    ∃ entry, Runner.buildEntry builder k bp ap = .ok entry ∧
      entry.skipped = false ∧ entry.skipReason = "" := by
  rcases h with ⟨⟨m, hb⟩, ha⟩ | ⟨hb, ⟨m, ha⟩⟩
  · exact ⟨⟨k, k, ap, m, "", false, ""⟩,
      (by unfold Runner.buildEntry; rw [hb, ha]), rfl, rfl⟩
  · exact ⟨⟨k, k, ap, "", m, false, ""⟩,
      (by unfold Runner.buildEntry; rw [hb, ha]), rfl, rfl⟩

/-- C2 witness: before side exists, after side missing. -/
theorem C2_partial_overlay_not_skipped_witness :
    ((∃ m, (fun p => if p = "B" then Runner.BuildOutcome.ok "mm" else .notFound) "B" =
        .ok m) ∧
      (fun p => if p = "B" then Runner.BuildOutcome.ok "mm" else .notFound) "A" =
        .notFound) ∧
    (∃ entry, Runner.buildEntry
        (fun p => if p = "B" then Runner.BuildOutcome.ok "mm" else .notFound) "k" "B" "A" =
        .ok entry ∧ entry.skipped = false ∧ entry.skipReason = "") :=
  ⟨⟨⟨"mm", rfl⟩, rfl⟩,
    C2_partial_overlay_not_skipped
      (fun p => if p = "B" then Runner.BuildOutcome.ok "mm" else .notFound) "k" "B" "A"
      (Or.inl ⟨⟨"mm", rfl⟩, rfl⟩)⟩

/-- C7: an overlay marked skipped records pass for every configured policy
(IsPassing true, empty fail messages), and its summary has zero failure
and zero error counts — overall and in every gated bucket — regardless of
the raw outcome feed, so all three clean gates pass. -/
theorem C7_skip_vacuity (cfg : List (String × Policy.PolicyConfig))
    (ovMap : List (String × String))
    (oracle : String → String → Policy.PolicyEvalResult)
    (build : List (String × Policy.BuildEnvManifestResult))
    (comments : List String) (now : Int)
    (iter : String → List Policy.PolicyResult → List Policy.PolicyResult)
    (env : String) (m : Policy.BuildEnvManifestResult)
    (hmem : (env, m) ∈ build) (hskip : m.skipped = true)
    (hiter : ∀ e l, (iter e l).Perm l) :
    (∀ r ∈ Policy.evalEnvResults cfg oracle m,
      r.isPassing = true ∧ r.evaluationStatus = "pass" ∧
        r.failMessages = ([] : List String)) ∧
    ∃ s, (env, s) ∈ (Policy.generatePolicyEvalResult cfg ovMap oracle build
        comments now iter).environmentSummary ∧
      s.policyCounts.totalFailed = 0 ∧ s.policyCounts.totalErrored = 0 ∧
      s.policyCounts.blockingFailedCount = 0 ∧ s.policyCounts.blockingErroredCount = 0 ∧
      s.policyCounts.warningFailedCount = 0 ∧ s.policyCounts.warningErroredCount = 0 ∧
      s.policyCounts.recommendFailedCount = 0 ∧ s.policyCounts.recommendErroredCount = 0 ∧
      s.passingStatus.passBlockingCheck = true ∧
      s.passingStatus.passWarningCheck = true ∧
      s.passingStatus.passRecommendCheck = true := by
  have hres : Policy.evalEnvResults cfg oracle m =
      cfg.map (fun ip => Policy.passPolicyResult ip.1 ip.2) := by
    unfold Policy.evalEnvResults
    rw [if_pos hskip]
  have hall : ∀ r ∈ Policy.evalEnvResults cfg oracle m, r.isPassing = true ∧
      r.evaluationStatus = "pass" ∧ r.failMessages = ([] : List String) := by
    intro r hr
    rw [hres] at hr
    rcases List.mem_map.mp hr with ⟨ip, _, hip⟩
    rw [← hip]
    exact ⟨rfl, rfl, rfl⟩
  refine ⟨hall, ?_⟩
  have hperm : (iter env (Policy.evalEnvResults cfg oracle m)).Perm
      (Policy.evalEnvResults cfg oracle m) := hiter env _
  have hstat : ∀ r ∈ iter env (Policy.evalEnvResults cfg oracle m),
      r.evaluationStatus = "pass" :=
    fun r hr => (hall r (hperm.mem_iff.mp hr)).2.1
  have hfail : (iter env (Policy.evalEnvResults cfg oracle m)).countP
      (fun r => r.evaluationStatus == "fail") = 0 := by
    rw [List.countP_eq_zero]
    intro r hr
    simp [hstat r hr]
  have herr : (iter env (Policy.evalEnvResults cfg oracle m)).countP
      (fun r => r.evaluationStatus == "error") = 0 := by
    rw [List.countP_eq_zero]
    intro r hr
    simp [hstat r hr]
  have hzero : ∀ lv : String, ((iter env (Policy.evalEnvResults cfg oracle m)).countP
      (fun r => (alookup (Policy.determineEnforcementLevel cfg ovMap comments now)
        r.policyId).getD "" == lv && r.evaluationStatus == "fail") = 0) ∧
      ((iter env (Policy.evalEnvResults cfg oracle m)).countP
      (fun r => (alookup (Policy.determineEnforcementLevel cfg ovMap comments now)
        r.policyId).getD "" == lv && r.evaluationStatus == "error") = 0) := by
    intro lv
    constructor <;>
    · rw [List.countP_eq_zero]
      intro r hr
      simp [hstat r hr]
  refine ⟨(Policy.craftEnv (fun pid => (alookup (Policy.determineEnforcementLevel cfg ovMap
      comments now) pid).getD "") (iter env (Policy.evalEnvResults cfg oracle m))).2,
    ?_, ?_, ?_, ?_, ?_, ?_, ?_, ?_, ?_, ?_, ?_, ?_⟩
  · simp only [Policy.generatePolicyEvalResult]
    exact List.mem_map.mpr ⟨(env, m), hmem, rfl⟩
  all_goals
    simp only [Policy.craftEnv, Policy.mkSummary, Policy.craftFold_failedCnt,
      Policy.craftFold_erroredCnt, Policy.craftFold_blockingFailedCnt,
      Policy.craftFold_blockingErroredCnt, Policy.craftFold_warningFailedCnt,
      Policy.craftFold_warningErroredCnt, Policy.craftFold_recommendFailedCnt,
      Policy.craftFold_recommendErroredCnt, Policy.initCraftState]
    simp [hfail, herr, (hzero Policy.POLICY_LEVEL_BLOCK).1, (hzero Policy.POLICY_LEVEL_BLOCK).2,
      (hzero Policy.POLICY_LEVEL_WARNING).1, (hzero Policy.POLICY_LEVEL_WARNING).2,
      (hzero Policy.POLICY_LEVEL_RECOMMEND).1, (hzero Policy.POLICY_LEVEL_RECOMMEND).2]

/-- C7 witness: a concrete skipped overlay with a raw outcome feed that
would report failure, still recording pass everywhere. -/
theorem C7_skip_vacuity_witness :
    ((⟨"e", "e", "pa", "", "", true, "overlay not found in both before and after paths"⟩ :
        Policy.BuildEnvManifestResult).skipped = true) ∧
    (∀ r ∈ Policy.evalEnvResults
        [("p1", { name := "P1", description := "", ptype := "opa", filePath := "p1.rego",
                  externalLink := "",
                  enforcement := { inEffectAfter := some 0, isWarningAfter := none,
                                   isBlockingAfter := none, overrideComment := "" } })]
        (fun _ _ => { status := "fail", failMessages := ["x"], errorMessage := "",
                      stdout := "", stderr := "" })
        ⟨"e", "e", "pa", "", "", true, "overlay not found in both before and after paths"⟩,
      r.isPassing = true ∧ r.evaluationStatus = "pass" ∧
        r.failMessages = ([] : List String)) ∧
    ∃ s, (("e", s) ∈ (Policy.generatePolicyEvalResult
        [("p1", { name := "P1", description := "", ptype := "opa", filePath := "p1.rego",
                  externalLink := "",
                  enforcement := { inEffectAfter := some 0, isWarningAfter := none,
                                   isBlockingAfter := none, overrideComment := "" } })]
        [] (fun _ _ => { status := "fail", failMessages := ["x"], errorMessage := "",
                         stdout := "", stderr := "" })
        [("e", ⟨"e", "e", "pa", "", "", true,
          "overlay not found in both before and after paths"⟩)]
        [] 0 (fun _ l => l)).environmentSummary) ∧
      s.policyCounts.totalFailed = 0 ∧ s.policyCounts.totalErrored = 0 ∧
      s.policyCounts.blockingFailedCount = 0 ∧ s.policyCounts.blockingErroredCount = 0 ∧
      s.policyCounts.warningFailedCount = 0 ∧ s.policyCounts.warningErroredCount = 0 ∧
      s.policyCounts.recommendFailedCount = 0 ∧ s.policyCounts.recommendErroredCount = 0 ∧
      s.passingStatus.passBlockingCheck = true ∧
      s.passingStatus.passWarningCheck = true ∧
      s.passingStatus.passRecommendCheck = true := by
  refine ⟨rfl, ?_⟩
  exact C7_skip_vacuity
    [("p1", { name := "P1", description := "", ptype := "opa", filePath := "p1.rego",
              externalLink := "",
              enforcement := { inEffectAfter := some 0, isWarningAfter := none,
                               isBlockingAfter := none, overrideComment := "" } })]
    [] (fun _ _ => { status := "fail", failMessages := ["x"], errorMessage := "",
                     stdout := "", stderr := "" })
    [("e", ⟨"e", "e", "pa", "", "", true,
      "overlay not found in both before and after paths"⟩)]
    [] 0 (fun _ l => l) "e"
    ⟨"e", "e", "pa", "", "", true, "overlay not found in both before and after paths"⟩
    (List.mem_singleton.mpr rfl) rfl (fun _ l => List.Perm.refl l)

/-- C5 counterexample: a failing policy classified UNKNOWN lands in no
bucket, yet it IS counted in the overall totals: totalCount = 1 and
totalFailed = 1 for the overlay, where the claim demands 0. -/
theorem C5_counterexample :
    ((Policy.generatePolicyEvalResult
        [("p1", { name := "P1", description := "", ptype := "opa", filePath := "p1.rego",
                  externalLink := "",
                  enforcement := { inEffectAfter := none, isWarningAfter := none,
                                   isBlockingAfter := none, overrideComment := "" } })]
        [] (fun _ _ => { status := "fail", failMessages := ["boom"], errorMessage := "",
                         stdout := "", stderr := "" })
        [("e", ⟨"e", "e", "pa", "m", "a", false, ""⟩)]
        [] 0 (fun _ l => l)).policyMatrix =
      [("e", ⟨[], [], [], [], []⟩)]) ∧
    ((Policy.generatePolicyEvalResult
        [("p1", { name := "P1", description := "", ptype := "opa", filePath := "p1.rego",
                  externalLink := "",
                  enforcement := { inEffectAfter := none, isWarningAfter := none,
                                   isBlockingAfter := none, overrideComment := "" } })]
        [] (fun _ _ => { status := "fail", failMessages := ["boom"], errorMessage := "",
                         stdout := "", stderr := "" })
        [("e", ⟨"e", "e", "pa", "m", "a", false, ""⟩)]
        [] 0 (fun _ l => l)).environmentSummary.map
      (fun es => (es.1, es.2.policyCounts.totalCount, es.2.policyCounts.totalFailed)) =
      [("e", 1, 1)]) ∧
    (1 : Nat) ≠ 0 :=
  ⟨rfl, rfl, by decide⟩

/-- C5 (amended): for every overlay, a policy result classified at UNKNOWN
level is placed in none of the five enforcement-level buckets, but it is
still counted in the overall totals: totalCount counts every configured
policy and the overall success/fail/error counts are taken over all
results, UNKNOWN-level ones included. -/
theorem C5_unknown_bucket_exclusion (cfg : List (String × Policy.PolicyConfig))
    (ovMap : List (String × String))
    (oracle : String → String → Policy.PolicyEvalResult)
    (build : List (String × Policy.BuildEnvManifestResult))
    (comments : List String) (now : Int)
    (iter : String → List Policy.PolicyResult → List Policy.PolicyResult)
    (env : String) (m : Policy.BuildEnvManifestResult) (r : Policy.PolicyResult)
    (hmem : (env, m) ∈ build)
    (_hr : r ∈ iter env (Policy.evalEnvResults cfg oracle m))
    (hlvl : (alookup (Policy.determineEnforcementLevel cfg ovMap comments now)
      r.policyId).getD "" = Policy.POLICY_LEVEL_UNKNOWN) :
    ∃ mat s,
      ((env, mat) ∈ (Policy.generatePolicyEvalResult cfg ovMap oracle build
        comments now iter).policyMatrix) ∧
      ((env, s) ∈ (Policy.generatePolicyEvalResult cfg ovMap oracle build
        comments now iter).environmentSummary) ∧
      r ∉ mat.blockingPolicies ∧ r ∉ mat.warningPolicies ∧
      r ∉ mat.recommendPolicies ∧ r ∉ mat.overriddenPolicies ∧
      r ∉ mat.notInEffectPolicies ∧
      s.policyCounts.totalCount = (iter env (Policy.evalEnvResults cfg oracle m)).length ∧
      s.policyCounts.totalSuccess = (iter env (Policy.evalEnvResults cfg oracle m)).countP
        (fun x => x.evaluationStatus == "pass") ∧
      s.policyCounts.totalFailed = (iter env (Policy.evalEnvResults cfg oracle m)).countP
        (fun x => x.evaluationStatus == "fail") ∧
      s.policyCounts.totalErrored = (iter env (Policy.evalEnvResults cfg oracle m)).countP
        (fun x => x.evaluationStatus == "error") := by
  refine ⟨(Policy.craftEnv (fun pid => (alookup (Policy.determineEnforcementLevel cfg ovMap
      comments now) pid).getD "") (iter env (Policy.evalEnvResults cfg oracle m))).1,
    (Policy.craftEnv (fun pid => (alookup (Policy.determineEnforcementLevel cfg ovMap
      comments now) pid).getD "") (iter env (Policy.evalEnvResults cfg oracle m))).2,
    ?_, ?_, ?_, ?_, ?_, ?_, ?_, ?_, ?_, ?_, ?_⟩
  · simp only [Policy.generatePolicyEvalResult]
    exact List.mem_map.mpr ⟨(env, m), hmem, rfl⟩
  · simp only [Policy.generatePolicyEvalResult]
    exact List.mem_map.mpr ⟨(env, m), hmem, rfl⟩
  · intro hin
    simp only [Policy.craftEnv, Policy.mkMatrix, Policy.craftFold_blockingPolicies,
      Policy.initCraftState, List.nil_append] at hin
    have hp := (List.mem_filter.mp hin).2
    rw [hlvl] at hp
    exact absurd hp (by decide)
  · intro hin
    simp only [Policy.craftEnv, Policy.mkMatrix, Policy.craftFold_warningPolicies,
      Policy.initCraftState, List.nil_append] at hin
    have hp := (List.mem_filter.mp hin).2
    rw [hlvl] at hp
    exact absurd hp (by decide)
  · intro hin
    simp only [Policy.craftEnv, Policy.mkMatrix, Policy.craftFold_recommendPolicies,
      Policy.initCraftState, List.nil_append] at hin
    have hp := (List.mem_filter.mp hin).2
    rw [hlvl] at hp
    exact absurd hp (by decide)
  · intro hin
    simp only [Policy.craftEnv, Policy.mkMatrix, Policy.craftFold_overriddenPolicies,
      Policy.initCraftState, List.nil_append] at hin
    have hp := (List.mem_filter.mp hin).2
    rw [hlvl] at hp
    exact absurd hp (by decide)
  · intro hin
    simp only [Policy.craftEnv, Policy.mkMatrix, Policy.craftFold_notInEffectPolicies,
      Policy.initCraftState, List.nil_append] at hin
    have hp := (List.mem_filter.mp hin).2
    rw [hlvl] at hp
    exact absurd hp (by decide)
  all_goals
    simp [Policy.craftEnv, Policy.mkSummary, Policy.craftFold_totalCnt,
      Policy.craftFold_successCnt, Policy.craftFold_failedCnt,
      Policy.craftFold_erroredCnt, Policy.initCraftState]

/-- C5 witness: the failing UNKNOWN-level policy result of the
counterexample overlay, with its membership and level hypotheses
discharged concretely. -/
theorem C5_unknown_bucket_exclusion_witness :
    ((⟨"p1", "P1", "", "", false, "fail", ["boom"], "", "", ""⟩ : Policy.PolicyResult) ∈
      (fun (_ : String) (l : List Policy.PolicyResult) => l) "e"
        (Policy.evalEnvResults
          [("p1", { name := "P1", description := "", ptype := "opa", filePath := "p1.rego",
                    externalLink := "",
                    enforcement := { inEffectAfter := none, isWarningAfter := none,
                                     isBlockingAfter := none, overrideComment := "" } })]
          (fun _ _ => { status := "fail", failMessages := ["boom"], errorMessage := "",
                        stdout := "", stderr := "" })
          ⟨"e", "e", "pa", "m", "a", false, ""⟩)) ∧
    ∃ mat s,
      (("e", mat) ∈ (Policy.generatePolicyEvalResult
        [("p1", { name := "P1", description := "", ptype := "opa", filePath := "p1.rego",
                  externalLink := "",
                  enforcement := { inEffectAfter := none, isWarningAfter := none,
                                   isBlockingAfter := none, overrideComment := "" } })]
        [] (fun _ _ => { status := "fail", failMessages := ["boom"], errorMessage := "",
                         stdout := "", stderr := "" })
        [("e", ⟨"e", "e", "pa", "m", "a", false, ""⟩)]
        [] 0 (fun _ l => l)).policyMatrix) ∧
      (("e", s) ∈ (Policy.generatePolicyEvalResult
        [("p1", { name := "P1", description := "", ptype := "opa", filePath := "p1.rego",
                  externalLink := "",
                  enforcement := { inEffectAfter := none, isWarningAfter := none,
                                   isBlockingAfter := none, overrideComment := "" } })]
        [] (fun _ _ => { status := "fail", failMessages := ["boom"], errorMessage := "",
                         stdout := "", stderr := "" })
        [("e", ⟨"e", "e", "pa", "m", "a", false, ""⟩)]
        [] 0 (fun _ l => l)).environmentSummary) ∧
      (⟨"p1", "P1", "", "", false, "fail", ["boom"], "", "", ""⟩ : Policy.PolicyResult) ∉
        mat.blockingPolicies ∧
      (⟨"p1", "P1", "", "", false, "fail", ["boom"], "", "", ""⟩ : Policy.PolicyResult) ∉
        mat.warningPolicies ∧
      (⟨"p1", "P1", "", "", false, "fail", ["boom"], "", "", ""⟩ : Policy.PolicyResult) ∉
        mat.recommendPolicies ∧
      (⟨"p1", "P1", "", "", false, "fail", ["boom"], "", "", ""⟩ : Policy.PolicyResult) ∉
        mat.overriddenPolicies ∧
      (⟨"p1", "P1", "", "", false, "fail", ["boom"], "", "", ""⟩ : Policy.PolicyResult) ∉
        mat.notInEffectPolicies ∧
      s.policyCounts.totalCount = ((fun (_ : String) (l : List Policy.PolicyResult) => l) "e"
        (Policy.evalEnvResults
          [("p1", { name := "P1", description := "", ptype := "opa", filePath := "p1.rego",
                    externalLink := "",
                    enforcement := { inEffectAfter := none, isWarningAfter := none,
                                     isBlockingAfter := none, overrideComment := "" } })]
          (fun _ _ => { status := "fail", failMessages := ["boom"], errorMessage := "",
                        stdout := "", stderr := "" })
          ⟨"e", "e", "pa", "m", "a", false, ""⟩)).length ∧
      s.policyCounts.totalSuccess = ((fun (_ : String) (l : List Policy.PolicyResult) => l) "e"
        (Policy.evalEnvResults
          [("p1", { name := "P1", description := "", ptype := "opa", filePath := "p1.rego",
                    externalLink := "",
                    enforcement := { inEffectAfter := none, isWarningAfter := none,
                                     isBlockingAfter := none, overrideComment := "" } })]
          (fun _ _ => { status := "fail", failMessages := ["boom"], errorMessage := "",
                        stdout := "", stderr := "" })
          ⟨"e", "e", "pa", "m", "a", false, ""⟩)).countP
        (fun x => x.evaluationStatus == "pass") ∧
      s.policyCounts.totalFailed = ((fun (_ : String) (l : List Policy.PolicyResult) => l) "e"
        (Policy.evalEnvResults
          [("p1", { name := "P1", description := "", ptype := "opa", filePath := "p1.rego",
                    externalLink := "",
                    enforcement := { inEffectAfter := none, isWarningAfter := none,
                                     isBlockingAfter := none, overrideComment := "" } })]
          (fun _ _ => { status := "fail", failMessages := ["boom"], errorMessage := "",
                        stdout := "", stderr := "" })
          ⟨"e", "e", "pa", "m", "a", false, ""⟩)).countP
        (fun x => x.evaluationStatus == "fail") ∧
      s.policyCounts.totalErrored = ((fun (_ : String) (l : List Policy.PolicyResult) => l) "e"
        (Policy.evalEnvResults
          [("p1", { name := "P1", description := "", ptype := "opa", filePath := "p1.rego",
                    externalLink := "",
                    enforcement := { inEffectAfter := none, isWarningAfter := none,
                                     isBlockingAfter := none, overrideComment := "" } })]
          (fun _ _ => { status := "fail", failMessages := ["boom"], errorMessage := "",
                        stdout := "", stderr := "" })
          ⟨"e", "e", "pa", "m", "a", false, ""⟩)).countP
        (fun x => x.evaluationStatus == "error") := by
  refine ⟨by decide, ?_⟩
  exact C5_unknown_bucket_exclusion
    [("p1", { name := "P1", description := "", ptype := "opa", filePath := "p1.rego",
              externalLink := "",
              enforcement := { inEffectAfter := none, isWarningAfter := none,
                               isBlockingAfter := none, overrideComment := "" } })]
    [] (fun _ _ => { status := "fail", failMessages := ["boom"], errorMessage := "",
                     stdout := "", stderr := "" })
    [("e", ⟨"e", "e", "pa", "m", "a", false, ""⟩)]
    [] 0 (fun _ l => l) "e" ⟨"e", "e", "pa", "m", "a", false, ""⟩
    ⟨"p1", "P1", "", "", false, "fail", ["boom"], "", "", ""⟩
    (List.mem_singleton.mpr rfl) (by decide) rfl

/-- C9 counterexample: with two BLOCK-level policies, two runs that visit
the per-overlay result map in different orders (both legitimate Go map
iteration orders, i.e. permutations) produce the blocking bucket in
different orders, so the outputs are not identical. -/
theorem C9_counterexample :
    ((Policy.generatePolicyEvalResult
        [("p1", { name := "P1", description := "", ptype := "opa", filePath := "p1.rego",
                  externalLink := "",
                  enforcement := { inEffectAfter := some 0, isWarningAfter := none,
                                   isBlockingAfter := some 0, overrideComment := "" } }),
         ("p2", { name := "P2", description := "", ptype := "opa", filePath := "p2.rego",
                  externalLink := "",
                  enforcement := { inEffectAfter := some 0, isWarningAfter := none,
                                   isBlockingAfter := some 0, overrideComment := "" } })]
        [] (fun _ _ => { status := "pass", failMessages := [], errorMessage := "",
                         stdout := "", stderr := "" })
        [("e", ⟨"e", "e", "pa", "m", "a", false, ""⟩)]
        [] 5 (fun _ l => l)).policyMatrix.map
      (fun em => em.2.blockingPolicies.map (fun r => r.policyId)) = [["p1", "p2"]]) ∧
    ((Policy.generatePolicyEvalResult
        [("p1", { name := "P1", description := "", ptype := "opa", filePath := "p1.rego",
                  externalLink := "",
                  enforcement := { inEffectAfter := some 0, isWarningAfter := none,
                                   isBlockingAfter := some 0, overrideComment := "" } }),
         ("p2", { name := "P2", description := "", ptype := "opa", filePath := "p2.rego",
                  externalLink := "",
                  enforcement := { inEffectAfter := some 0, isWarningAfter := none,
                                   isBlockingAfter := some 0, overrideComment := "" } })]
        [] (fun _ _ => { status := "pass", failMessages := [], errorMessage := "",
                         stdout := "", stderr := "" })
        [("e", ⟨"e", "e", "pa", "m", "a", false, ""⟩)]
        [] 5 (fun _ l => l.reverse)).policyMatrix.map
      (fun em => em.2.blockingPolicies.map (fun r => r.policyId)) = [["p2", "p1"]]) ∧
    ([["p1", "p2"]] : List (List String)) ≠ [["p2", "p1"]] ∧
    (∀ (e : String) (l : List Policy.PolicyResult),
      ((fun (_ : String) (l : List Policy.PolicyResult) => l.reverse) e l).Perm l) :=
  ⟨rfl, rfl, by decide, fun _ l => l.reverse_perm⟩

/-- C9 (amended): for fixed configuration, override map, raw outcomes,
manifests, comments and time, any two runs (any two legitimate visit
orders of the per-overlay result map) produce identical environment
summaries — all counts and gates — and bucket lists that are permutations
of each other per overlay, in the same overlay order; only the order of
policy results inside each bucket may differ between runs. -/
theorem C9_determinism_up_to_bucket_order (cfg : List (String × Policy.PolicyConfig))
    (ovMap : List (String × String))
    (oracle : String → String → Policy.PolicyEvalResult)
    (build : List (String × Policy.BuildEnvManifestResult))
    (comments : List String) (now : Int)
    (iter1 iter2 : String → List Policy.PolicyResult → List Policy.PolicyResult)
    (h1 : ∀ e l, (iter1 e l).Perm l) (h2 : ∀ e l, (iter2 e l).Perm l) :
    (Policy.generatePolicyEvalResult cfg ovMap oracle build comments now
      iter1).environmentSummary =
      (Policy.generatePolicyEvalResult cfg ovMap oracle build comments now
        iter2).environmentSummary ∧
    List.Forall₂ (fun a b => a.1 = b.1 ∧
        a.2.blockingPolicies.Perm b.2.blockingPolicies ∧
        a.2.warningPolicies.Perm b.2.warningPolicies ∧
        a.2.recommendPolicies.Perm b.2.recommendPolicies ∧
        a.2.overriddenPolicies.Perm b.2.overriddenPolicies ∧
        a.2.notInEffectPolicies.Perm b.2.notInEffectPolicies)
      (Policy.generatePolicyEvalResult cfg ovMap oracle build comments now iter1).policyMatrix
      (Policy.generatePolicyEvalResult cfg ovMap oracle build comments now
        iter2).policyMatrix := by
  constructor
  · simp only [Policy.generatePolicyEvalResult]
    apply List.map_congr_left
    intro em _
    have hp : (iter1 em.1 (Policy.evalEnvResults cfg oracle em.2)).Perm
        (iter2 em.1 (Policy.evalEnvResults cfg oracle em.2)) :=
      (h1 em.1 _).trans (h2 em.1 _).symm
    exact congrArg (fun z => (em.1, z)) (by
      simp only [Policy.craftEnv]
      exact Policy.mkSummary_perm _ hp)
  · simp only [Policy.generatePolicyEvalResult]
    rw [List.forall₂_map_left_iff, List.forall₂_map_right_iff, List.forall₂_same]
    intro em _
    have hp : (iter1 em.1 (Policy.evalEnvResults cfg oracle em.2)).Perm
        (iter2 em.1 (Policy.evalEnvResults cfg oracle em.2)) :=
      (h1 em.1 _).trans (h2 em.1 _).symm
    exact ⟨rfl, (Policy.mkMatrix_perm _ hp).1, (Policy.mkMatrix_perm _ hp).2.1,
      (Policy.mkMatrix_perm _ hp).2.2.1, (Policy.mkMatrix_perm _ hp).2.2.2.1,
      (Policy.mkMatrix_perm _ hp).2.2.2.2⟩

/-- C9 witness: the amended theorem applied to a concrete run pair with
the identity visit order on both sides. -/
theorem C9_determinism_witness :
    (∀ (e : String) (l : List Policy.PolicyResult),
      ((fun (_ : String) (l : List Policy.PolicyResult) => l) e l).Perm l) ∧
    (Policy.generatePolicyEvalResult
      [("p1", { name := "P1", description := "", ptype := "opa", filePath := "p1.rego",
                externalLink := "",
                enforcement := { inEffectAfter := some 0, isWarningAfter := none,
                                 isBlockingAfter := some 0, overrideComment := "" } })]
      [] (fun _ _ => { status := "pass", failMessages := [], errorMessage := "",
                       stdout := "", stderr := "" })
      [("e", ⟨"e", "e", "pa", "m", "a", false, ""⟩)]
      [] 5 (fun _ l => l)).environmentSummary =
      (Policy.generatePolicyEvalResult
        [("p1", { name := "P1", description := "", ptype := "opa", filePath := "p1.rego",
                  externalLink := "",
                  enforcement := { inEffectAfter := some 0, isWarningAfter := none,
                                   isBlockingAfter := some 0, overrideComment := "" } })]
        [] (fun _ _ => { status := "pass", failMessages := [], errorMessage := "",
                         stdout := "", stderr := "" })
        [("e", ⟨"e", "e", "pa", "m", "a", false, ""⟩)]
        [] 5 (fun _ l => l)).environmentSummary :=
  ⟨fun _ l => List.Perm.refl l,
    (C9_determinism_up_to_bucket_order
      [("p1", { name := "P1", description := "", ptype := "opa", filePath := "p1.rego",
                externalLink := "",
                enforcement := { inEffectAfter := some 0, isWarningAfter := none,
                                 isBlockingAfter := some 0, overrideComment := "" } })]
      [] (fun _ _ => { status := "pass", failMessages := [], errorMessage := "",
                       stdout := "", stderr := "" })
      [("e", ⟨"e", "e", "pa", "m", "a", false, ""⟩)]
      [] 5 (fun _ l => l) (fun _ l => l)
      (fun _ l => List.Perm.refl l) (fun _ l => List.Perm.refl l)).1⟩
